import Mathlib

/-!
# provider-argocd-endpoint: a shallow embedding

The development follows the Go packages of the repository:

* `apis/...`                      the declarative records (`Endpoint`, `ProviderConfig`);
* `internal/clients/accounts`     the HTTP credential client (`Login`, `GenerateToken`);
* `internal/clients`              the secret helpers (`support.go`) and the connection
                                  resolver (`argocd.go`);
* `internal/controller/endpoint`  the external lifecycle controller
                                  (`Observe`, `Create`, `Update`, `Delete`).

Go functions that return `(value, error)` are embedded as functions returning a pair whose
second component is an `Option GoError` (`none` is Go's `nil` error).  Code that talks to the
outside (the cluster-state store, the HTTP transport, the event recorder, the logger) threads an
explicit `World`, which holds the store contents and a record of every call made, and reads an
`Env`, which decides the outcome of the calls the code cannot decide itself (store failures,
HTTP responses, failures of the debug dumps).  The end of the process by `log.Fatalf` is the
error value `GoError.fatal`.

Go strings are embedded as Lean strings (sequences of Unicode characters); byte slices read from
a secret are embedded as strings too, since the code only converts them with `string(...)`.
-/

namespace Go

/-- Go maps with string keys and values, as association lists with distinct keys. -/
abbrev StringMap := List (String × String)

/-- Map read `m[k]`: the stored value, or the zero value `""` when the key is missing. -/
def mapIndex (m : StringMap) (k : String) : String :=
  (m.lookup k).getD ""

/-- Map write `m[k] = v`. -/
def mapSet (m : StringMap) (k v : String) : StringMap :=
  m.filter (fun p => p.1 != k) ++ [(k, v)]

/-- Go `unicode.IsSpace`: the Latin-1 spaces, and for the other runes the
`White_Space` table. -/
def isSpace (r : Char) : Bool :=
  let n := r.toNat
  if n ≤ 0xFF then
    n == 0x09 || n == 0x0A || n == 0x0B || n == 0x0C || n == 0x0D || n == 0x20
      || n == 0x85 || n == 0xA0
  else
    n == 0x1680 || (0x2000 ≤ n && n ≤ 0x200A) || n == 0x2028 || n == 0x2029
      || n == 0x202F || n == 0x205F || n == 0x3000

/-- Go `strings.TrimSpace`: the string without its leading and trailing white space. -/
def TrimSpace (s : String) : String :=
  String.mk ((s.data.dropWhile isSpace).reverse.dropWhile isSpace).reverse

end Go

open Go

/-! ## Errors -/

/-- Errors of the cluster-state store (`apierrors.StatusError`, by reason). -/
inductive KubeError where
  | notFound
  | alreadyExists
  | other (reason : String)
  deriving DecidableEq, Repr

/-- Go `error` values built or passed on by the code. -/
inductive GoError where
  /-- The result of `errors.New`, `errors.Errorf`, `fmt.Errorf`: an error that is only a message. -/
  | text (msg : String)
  /-- The result of `errors.Wrap` / `errors.Wrapf`: a message around a cause. -/
  | wrapped (cause : GoError) (msg : String)
  /-- An error returned by the store client. -/
  | api (e : KubeError)
  /-- An error returned by the HTTP library (request construction, transport, body read). -/
  | http (msg : String)
  /-- An error returned by `json.Unmarshal`. -/
  | json (msg : String)
  /-- A run-time panic (the call does not return to its caller). -/
  | panic (msg : String)
  /-- The end of the process by `log.Fatalf`: the call does not return. The value stands for
  this outcome; every caller in the repository passes an error on at once, without a further
  effect, so nothing follows it. -/
  | fatal (msg : String)
  deriving DecidableEq, Repr

/-- Go `apierrors.IsNotFound`: true for the store's not-found status error, looking through
wrapped errors. -/
def IsNotFound : GoError → Bool
  | .api .notFound => true
  | .wrapped cause _ => IsNotFound cause
  | _ => false

/-! ## API types (`apis/...`, with the crossplane-runtime common types they embed) -/

/-- Type `xpv1.SecretReference`. -/
structure SecretReference where
  Name : String
  Namespace : String
  deriving DecidableEq, Repr

/-- Type `xpv1.SecretKeySelector`: a secret reference (embedded) and a key. -/
structure SecretKeySelector where
  Name : String
  Namespace : String
  Key : String
  deriving DecidableEq, Repr

/-- Type `ProviderCredentials`; `Source` is the string type `xpv1.CredentialsSource`. -/
structure ProviderCredentials where
  Source : String
  SecretRef : Option SecretKeySelector
  deriving DecidableEq, Repr

/-- Constant `xpv1.CredentialsSourceSecret`. -/
def CredentialsSourceSecret : String := "Secret"

/-- Type `ProviderConfigSpec`. -/
structure ProviderConfigSpec where
  ServerUrl : String
  UserAgent : String
  DebugClient : Option Bool
  Credentials : Option ProviderCredentials
  deriving DecidableEq, Repr

/-- Type `ProviderConfig` (cluster scoped: a name and a spec). -/
structure ProviderConfig where
  Name : String
  Spec : ProviderConfigSpec
  deriving DecidableEq, Repr

/-- Type `EndpointParameters`. -/
structure EndpointParameters where
  ID : String
  Account : String
  WriteSecretToRef : SecretReference
  deriving DecidableEq, Repr

/-- Type `xpv1.Condition`, without its transition time (`Typ` is the Go field `Type`). -/
structure Condition where
  Typ : String
  Status : String
  Reason : String
  deriving DecidableEq, Repr

/-- Condition `xpv1.Available()`. -/
def Available : Condition := { Typ := "Ready", Status := "True", Reason := "Available" }

/-- Condition `xpv1.Creating()`. -/
def Creating : Condition := { Typ := "Ready", Status := "False", Reason := "Creating" }

/-- Condition `xpv1.Deleting()`. -/
def Deleting : Condition := { Typ := "Ready", Status := "False", Reason := "Deleting" }

/-- Type `Endpoint`: the provider-config reference of its `ResourceSpec` (by name), the
`ForProvider` parameters, and the conditions of its status. -/
structure Endpoint where
  ProviderConfigReference : Option String
  ForProvider : EndpointParameters
  Conditions : List Condition
  deriving DecidableEq, Repr

/-- Method `SetConditions` of the conditioned status: a condition replaces the stored condition
of its type, or is added when there is none. -/
def Endpoint.SetConditions (cr : Endpoint) (c : Condition) : Endpoint :=
  if cr.Conditions.any (fun x => x.Typ == c.Typ) then
    { cr with Conditions := cr.Conditions.map (fun x => if x.Typ == c.Typ then c else x) }
  else
    { cr with Conditions := cr.Conditions ++ [c] }

/-- Interface `resource.Managed`: an `Endpoint`, or a managed resource of another kind. -/
inductive Managed where
  | endpoint (cr : Endpoint)
  | other (providerConfigReference : Option String)
  deriving DecidableEq, Repr

/-- Method `GetProviderConfigReference`. -/
def Managed.GetProviderConfigReference : Managed → Option String
  | .endpoint cr => cr.ProviderConfigReference
  | .other r => r

/-- Type `corev1.Secret`, with the fields the code touches. -/
structure Secret where
  Name : String
  Namespace : String
  Labels : StringMap
  Data : StringMap
  StringData : StringMap
  deriving DecidableEq, Repr

/-- The zero value `&corev1.Secret{}`. -/
def Secret.zero : Secret :=
  { Name := "", Namespace := "", Labels := [], Data := [], StringData := [] }

/-! ## The outside world: cluster-state store, HTTP transport, recorder, logger -/

/-- Contents of the cluster-state store: the secrets and the provider configurations. -/
structure Kube where
  secrets : List Secret
  providerConfigs : List ProviderConfig
  deriving DecidableEq, Repr

/-- Calls of the store client made by the code. -/
inductive KubeOp where
  | getSecret (ns name : String)
  | createSecret (s : Secret)
  | deleteSecret (ns name : String)
  | getProviderConfig (name : String)
  | track (providerConfig : String)
  deriving DecidableEq, Repr

/-- JSON values. -/
inductive Json where
  | null
  | bool (b : Bool)
  | num (literal : String)
  | str (s : String)
  | arr (items : List Json)
  | obj (members : List (String × Json))

/-- Type `http.Request`, with the parts the code sets: method, URL, headers, and the body
(`none` is the `nil` body; `some v` is the JSON text of `v`). -/
structure Request where
  Method : String
  URL : String
  Header : StringMap
  Body : Option Json

/-- What reading and decoding the body of a response gives. -/
inductive ResponseBody where
  /-- Reading the body fails (`ioutil.ReadAll` returns an error). -/
  | unreadable (err : String)
  /-- The bytes read are not a JSON text (`json.Unmarshal` reports a syntax error). -/
  | malformed (err : String)
  /-- The bytes read are the JSON text of `v`. -/
  | json (v : Json)

/-- Type `http.Response`, with the parts the code reads. -/
structure Response where
  StatusCode : Nat
  Status : String
  Body : ResponseBody

/-- Events sent to the `record.EventRecorder`. -/
structure Event where
  EventType : String
  Reason : String
  Message : String
  deriving DecidableEq, Repr

/-- Output of `debug` (accounts/client.go): the dump of a request or of a response. -/
inductive Dump where
  | request (req : Request)
  | response (res : Response)

/-- Everything the code can change or leave a mark on: the store contents, and the record of the
store calls, HTTP requests, events, debug log lines and debug dumps made so far. The last
field is a ghost record: the calls of `GenerateToken` made so far, each with the account name
and the `expiresIn` it was given (the Go function leaves no such mark; the record lets a
statement speak of what a caller passes). -/
structure World where
  kube : Kube
  calls : List KubeOp
  requests : List Request
  events : List Event
  logs : List (String × List String)
  dumps : List Dump
  mintCalls : List (String × Int)

/-- The outcomes the code does not decide: a store call may fail for a reason of its own
(`kubeFault`), `http.NewRequest` may reject a method and URL, the transport answers a
request with an error or a response, and the dump of a request or response for the debug
output may fail for a reason of its own (`dumpFault`). -/
structure Env where
  kubeFault : KubeOp → Option KubeError
  newRequestError : String → String → Option String
  roundTrip : Request → String ⊕ Response
  dumpFault : Dump → Option String

/-- A store with the given secrets, before any call. -/
def World.init (secrets : List Secret) : World :=
  { kube := { secrets := secrets, providerConfigs := [] },
    calls := [], requests := [], events := [], logs := [], dumps := [], mintCalls := [] }

/-- An environment in which no store call fails for a reason of its own, every request is
well formed, the server gives the same response to every request, and no dump fails for a
reason of its own. -/
def Env.quiet (res : Response) : Env :=
  { kubeFault := fun _ => none, newRequestError := fun _ _ => none,
    roundTrip := fun _ => .inr res, dumpFault := fun _ => none }

/-- The secret stored under a namespace and name, if any. -/
def Kube.findSecret (k : Kube) (ns name : String) : Option Secret :=
  k.secrets.find? (fun s => s.Namespace == ns && s.Name == name)

/-- Store client `Get` of a secret: the call fails with the environment's fault, or with
not-found when no secret has the key, and returns the stored secret otherwise. -/
def kubeGetSecret (env : Env) (w : World) (ns name : String) : (KubeError ⊕ Secret) × World :=
  let w1 := { w with calls := w.calls ++ [KubeOp.getSecret ns name] }
  match env.kubeFault (.getSecret ns name) with
  | some e => (.inl e, w1)
  | none =>
    match w.kube.findSecret ns name with
    | none => (.inl .notFound, w1)
    | some s => (.inr s, w1)

/-- What the store keeps of a submitted secret: the string data is written into the data
(the store's write-only `stringData` convenience field) and is not kept itself. -/
def Secret.stored (s : Secret) : Secret :=
  { s with Data := s.StringData.foldl (fun m p => mapSet m p.1 p.2) s.Data, StringData := [] }

/-- Store client `Create` of a secret: the call fails with the environment's fault, or with
already-exists when a secret has the key (create fails if-exists), and adds the secret
otherwise. A failed call leaves the store as it was. -/
def kubeCreateSecret (env : Env) (w : World) (s : Secret) : Option KubeError × World :=
  let w1 := { w with calls := w.calls ++ [KubeOp.createSecret s] }
  match env.kubeFault (.createSecret s) with
  | some e => (some e, w1)
  | none =>
    match w.kube.findSecret s.Namespace s.Name with
    | some _ => (some .alreadyExists, w1)
    | none => (none, { w1 with kube := { w.kube with secrets := w.kube.secrets ++ [s.stored] } })

/-- Store client `Delete` of a secret: the call fails with the environment's fault, or with
not-found when no secret has the key (delete fails if-absent), and removes the secret
otherwise. A failed call leaves the store as it was. -/
def kubeDeleteSecret (env : Env) (w : World) (ns name : String) : Option KubeError × World :=
  let w1 := { w with calls := w.calls ++ [KubeOp.deleteSecret ns name] }
  match env.kubeFault (.deleteSecret ns name) with
  | some e => (some e, w1)
  | none =>
    match w.kube.findSecret ns name with
    | none => (some .notFound, w1)
    | some _ =>
      (none, { w1 with kube := { w.kube with
        secrets := w.kube.secrets.filter (fun s => !(s.Namespace == ns && s.Name == name)) } })

/-- Store client `Get` of a provider configuration (cluster scoped, by name). -/
def kubeGetProviderConfig (env : Env) (w : World) (name : String) :
    (KubeError ⊕ ProviderConfig) × World :=
  let w1 := { w with calls := w.calls ++ [KubeOp.getProviderConfig name] }
  match env.kubeFault (.getProviderConfig name) with
  | some e => (.inl e, w1)
  | none =>
    match w.kube.providerConfigs.find? (fun pc => pc.Name == name) with
    | none => (.inl .notFound, w1)
    | some pc => (.inr pc, w1)

/-- Method `Track` of the provider-config usage tracker (crossplane-runtime): records the usage
in the store; its failure is the environment's. -/
def kubeTrack (env : Env) (w : World) (providerConfig : String) : Option GoError × World :=
  let w1 := { w with calls := w.calls ++ [KubeOp.track providerConfig] }
  match env.kubeFault (.track providerConfig) with
  | some e => (some (.wrapped (.api e) "cannot apply ProviderConfigUsage"), w1)
  | none => (none, w1)

/-- Method `http.Client.Do`: the request is recorded and answered by the environment. -/
def httpDo (env : Env) (w : World) (req : Request) : (String ⊕ Response) × World :=
  (env.roundTrip req, { w with requests := w.requests ++ [req] })

/-- Function `json.Unmarshal(body, &response)` for `response` of type `map[string]string`:
`null` leaves the map nil, an object whose members are strings (or `null`, which gives the
zero value) fills it, a later member replacing an earlier one of the same name; any other
value is a type error. -/
def unmarshalStringMap : Json → StringMap × Option GoError
  | .null => ([], none)
  | .obj members =>
    if members.all (fun p => match p.2 with
        | .str _ => true
        | .null => true
        | _ => false) then
      (members.foldl (fun m p => mapSet m p.1 (match p.2 with
        | .str s => s
        | _ => "")) [], none)
    else
      ([], some (.json "json: cannot unmarshal value into Go value of type string"))
  | _ => ([], some (.json "json: cannot unmarshal value into Go value of type map[string]string"))

/-! ## Package `internal/clients/accounts` (client.go) -/

namespace accounts

/-- Constant `defaultUserAgent`. -/
def defaultUserAgent : String := "Krateo Platfomops"

/-- Type `TokenProviderOptions`. -/
structure TokenProviderOptions where
  ServerUrl : String
  UserAgent : String
  AuthToken : String
  DebugClient : Bool
  deriving DecidableEq, Repr

/-- Type `tokenProvider` (its HTTP client is the environment). -/
structure tokenProvider where
  serverAddr : String
  userAgent : String
  authToken : String
  debugClient : Bool
  deriving DecidableEq, Repr

/-- Function `NewTokenProvider`. -/
def NewTokenProvider (opts : TokenProviderOptions) : GoError ⊕ tokenProvider :=
  let userAgent := if opts.UserAgent != "" then opts.UserAgent else defaultUserAgent
  let serverAddr := if opts.ServerUrl != "" then opts.ServerUrl else ""
  if serverAddr == "" then
    .inl (.text "unspecified server url for Argo CD")
  else
    .inr { serverAddr := serverAddr, userAgent := userAgent, authToken := "",
           debugClient := opts.DebugClient }

/-- Method `SetAuthToken`. -/
def tokenProvider.SetAuthToken (tp : tokenProvider) (token : String) : tokenProvider :=
  { tp with authToken := token }

/-- Functions `httputil.DumpRequestOut(req, true)` and `httputil.DumpResponse(res, true)`: the
error of the dump, if it fails. The dump of a response reads its body, so it fails when the
body cannot be read; any dump may also fail for a reason of its own. -/
def dumpError (env : Env) : Dump → Option String
  | .request req => env.dumpFault (.request req)
  | .response res =>
    match res.Body with
    | .unreadable err => some err
    | _ => env.dumpFault (.response res)

/-- Function `debug` applied to the dump of a request or response, under the guard
`if tp.debugClient` of its callers: in debug mode a dump that succeeds is printed, and a dump
that fails ends the process (`log.Fatalf`), which the first component reports. -/
def debug (enabled : Bool) (env : Env) (w : World) (d : Dump) : Option GoError × World :=
  if enabled then
    match dumpError env d with
    | none => (none, { w with dumps := w.dumps ++ [d] })
    | some err => (some (.fatal err), w)
  else
    (none, w)

/-- Method `CreateSession`: POST of the JSON object of user name and password to the session
URL; status 200 is required, and the `token` entry of the decoded body is returned. -/
def tokenProvider.CreateSession (tp : tokenProvider) (env : Env) (w : World)
    (user pass : String) : (String × Option GoError) × World :=
  let data : Json := .obj [("password", .str pass), ("username", .str user)]
  let url := tp.serverAddr ++ "/api/v1/session"
  match env.newRequestError "POST" url with
  | some err => (("", some (.http err)), w)
  | none =>
    let req : Request :=
      { Method := "POST", URL := url,
        Header := mapSet [] "Content-Type" "application/json; charset=UTF-8",
        Body := some data }
    match debug tp.debugClient env w (.request req) with
    | (some exit, w1) => (("", some exit), w1)
    | (none, w1) =>
      match httpDo env w1 req with
      | (.inl err, w2) => (("", some (.http err)), w2)
      | (.inr res, w2) =>
        match debug tp.debugClient env w2 (.response res) with
        | (some exit, w3) => (("", some exit), w3)
        | (none, w3) =>
          if res.StatusCode != 200 then
            (("", some (.text ("create argocd session request failed: " ++ res.Status))), w3)
          else
            match res.Body with
            | .unreadable err => (("", some (.http err)), w3)
            | .malformed err => (("", some (.json err)), w3)
            | .json v =>
              match unmarshalStringMap v with
              | (_, some err) => (("", some err), w3)
              | (response, none) => ((mapIndex response "token", none), w3)

/-- Method `CreateTokenForAccount`: POST without a body to the token URL of the account, with
the session token as bearer authorization; status 200 is required, and the `token` entry of
the decoded body is returned. -/
def tokenProvider.CreateTokenForAccount (tp : tokenProvider) (env : Env) (w : World)
    (name : String) : (String × Option GoError) × World :=
  let url := tp.serverAddr ++ "/api/v1/account/" ++ name ++ "/token"
  match env.newRequestError "POST" url with
  | some err => (("", some (.http err)), w)
  | none =>
    let req : Request :=
      { Method := "POST", URL := url,
        Header := mapSet (mapSet [] "Content-Type" "application/json; charset=UTF-8")
          "Authorization" ("Bearer " ++ tp.authToken),
        Body := none }
    match debug tp.debugClient env w (.request req) with
    | (some exit, w1) => (("", some exit), w1)
    | (none, w1) =>
      match httpDo env w1 req with
      | (.inl err, w2) => (("", some (.http err)), w2)
      | (.inr res, w2) =>
        match debug tp.debugClient env w2 (.response res) with
        | (some exit, w3) => (("", some exit), w3)
        | (none, w3) =>
          if res.StatusCode != 200 then
            (("", some (.text
              ("create argocd account token request failed: " ++ res.Status))), w3)
          else
            match res.Body with
            | .unreadable err => (("", some (.http err)), w3)
            | .malformed err => (("", some (.json err)), w3)
            | .json v =>
              match unmarshalStringMap v with
              | (_, some err) => (("", some err), w3)
              | (response, none) => ((mapIndex response "token", none), w3)

/-- Function `Login`. -/
def Login (env : Env) (w : World) (opts : TokenProviderOptions) (user pass : String) :
    (String × Option GoError) × World :=
  match NewTokenProvider opts with
  | .inl err => (("", some err), w)
  | .inr cli => cli.CreateSession env w user pass

/-- Function `GenerateToken`; `expiresIn` is an `int64`. The call is first entered in the
ghost record of the world with the arguments it was given; the body, as in the source, never
reads `expiresIn`. -/
def GenerateToken (env : Env) (w : World) (opts : TokenProviderOptions) (name : String)
    (expiresIn : Int) : (String × Option GoError) × World :=
  let w := { w with mintCalls := w.mintCalls ++ [(name, expiresIn)] }
  match NewTokenProvider opts with
  | .inl err => (("", some err), w)
  | .inr cli =>
    let cli := cli.SetAuthToken opts.AuthToken
    cli.CreateTokenForAccount env w name

end accounts

/-! ## Package `internal/clients` (support.go, argocd.go) -/

namespace clients

/-- Constant `tokenKey`. -/
def tokenKey : String := "bearer"

/-- Type `CreateSecretOpts`. -/
structure CreateSecretOpts where
  Token : String
  TargetURL : String
  SecretRef : Option SecretReference
  deriving DecidableEq, Repr

/-- Function `CreateEndpointSecret`. -/
def CreateEndpointSecret (env : Env) (w : World) (opts : CreateSecretOpts) :
    Option GoError × World :=
  match opts.SecretRef with
  | none => (some (.text "no endpoint secret referenced"), w)
  | some ref =>
    let s : Secret :=
      { Secret.zero with
        Name := ref.Name
        Namespace := ref.Namespace
        Labels := [("app.kubernetes.io/created-by", "krateo"),
                   ("category", "delivery"),
                   ("group", "endpoint"),
                   ("icon", "fa-solid_fa-truck"),
                   ("type", "argocd")]
        StringData := [(tokenKey, opts.Token), ("target", opts.TargetURL)] }
    match kubeCreateSecret env w s with
    | (some err, w1) => (some (.api err), w1)
    | (none, w1) => (none, w1)

/-- Function `GetEndpointSecret`. -/
def GetEndpointSecret (env : Env) (w : World) (ref : Option SecretReference) :
    (String × Option GoError) × World :=
  match ref with
  | none => (("", some (.text "no credentials secret referenced")), w)
  | some ref =>
    match kubeGetSecret env w ref.Namespace ref.Name with
    | (.inl err, w1) =>
      if IsNotFound (.api err) then
        (("", none), w1)
      else
        (("", some (.wrapped (.api err)
          ("cannot get " ++ ref.Name ++ " secret in namespace " ++ ref.Namespace))), w1)
    | (.inr s, w1) => ((mapIndex s.Data tokenKey, none), w1)

/-- Function `DeleteEndpointSecret`. -/
def DeleteEndpointSecret (env : Env) (w : World) (ref : Option SecretReference) :
    Option GoError × World :=
  match ref with
  | none => (some (.text "no endpoint secret referenced"), w)
  | some ref =>
    match kubeDeleteSecret env w ref.Namespace ref.Name with
    | (some err, w1) => (some (.api err), w1)
    | (none, w1) => (none, w1)

/-- Function `isBoolPtrEqualToBool`. -/
def isBoolPtrEqualToBool (bp : Option Bool) (b : Bool) : Bool :=
  match bp with
  | none => false
  | some v => v == b

/-- Constant `argocdInititalAdminSecret`. -/
def argocdInititalAdminSecret : String := "argocd-initial-admin-secret"

/-- Constant `corev1.BasicAuthPasswordKey`. -/
def BasicAuthPasswordKey : String := "password"

/-- Function `getSecret`. -/
def getSecret (env : Env) (w : World) (ref : Option SecretKeySelector) :
    (String × Option GoError) × World :=
  match ref with
  | none => (("", some (.text "no credentials secret referenced")), w)
  | some ref =>
    match kubeGetSecret env w ref.Namespace ref.Name with
    | (.inl err, w1) => (("", some (.api err)), w1)
    | (.inr s, w1) => ((mapIndex s.Data ref.Key, none), w1)

/-- The first part of `GetInitialAdminPassword` (argocd.go, up to the call of `getSecret`):
the secret reference it resolves from the provider configuration, or the error it returns
before any read. -/
def initialAdminSecretRef (pc : ProviderConfig) : GoError ⊕ SecretKeySelector :=
  let ref : SecretKeySelector :=
    { Name := argocdInititalAdminSecret, Namespace := "", Key := BasicAuthPasswordKey }
  match pc.Spec.Credentials with
  | none => .inr ref
  | some credentials =>
    let s := credentials.Source
    if s != CredentialsSourceSecret then
      .inl (.text ("credentials source " ++ s ++ " is not currently supported"))
    else
      match credentials.SecretRef with
      | none => .inr ref
      | some csr =>
        let name := TrimSpace csr.Name
        let ref := if name.length > 0 then { ref with Name := name } else ref
        let namespace_ := TrimSpace csr.Namespace
        let ref := if namespace_.length > 0 then { ref with Namespace := namespace_ } else ref
        let key := TrimSpace csr.Key
        let ref := if key.length > 0 then { ref with Key := csr.Key } else ref
        .inr ref

/-- Function `GetInitialAdminPassword`: resolve the reference, then `getSecret`. -/
def GetInitialAdminPassword (env : Env) (w : World) (pc : ProviderConfig) :
    (String × Option GoError) × World :=
  match initialAdminSecretRef pc with
  | .inl err => (("", some err), w)
  | .inr ref => getSecret env w (some ref)

/-- Function `UseProviderConfig`. -/
def UseProviderConfig (env : Env) (w : World) (mg : Managed) :
    (Option accounts.TokenProviderOptions × Option GoError) × World :=
  match mg.GetProviderConfigReference with
  | none => ((none, some (.panic "invalid memory address or nil pointer dereference")), w)
  | some pcName =>
    match kubeGetProviderConfig env w pcName with
    | (.inl err, w1) => ((none, some (.wrapped (.api err) "cannot get referenced Provider")), w1)
    | (.inr pc, w1) =>
      match kubeTrack env w1 pcName with
      | (some err, w2) =>
        ((none, some (.wrapped err "cannot track ProviderConfig usage")), w2)
      | (none, w2) =>
        let opts : accounts.TokenProviderOptions :=
          { ServerUrl := pc.Spec.ServerUrl
            UserAgent := pc.Spec.UserAgent
            AuthToken := ""
            DebugClient := isBoolPtrEqualToBool pc.Spec.DebugClient true }
        match GetInitialAdminPassword env w2 pc with
        | ((_, some err), w3) => ((none, some err), w3)
        | ((pass, none), w3) =>
          match accounts.Login env w3 opts "admin" pass with
          | ((_, some err), w4) => ((none, some err), w4)
          | ((token, none), w4) => ((some { opts with AuthToken := token }, none), w4)

/-- Function `GetConfig`. -/
def GetConfig (env : Env) (w : World) (mg : Managed) :
    (Option accounts.TokenProviderOptions × Option GoError) × World :=
  if mg.GetProviderConfigReference != none then
    UseProviderConfig env w mg
  else
    ((none, some (.text "providerConfigRef is not given")), w)

end clients

/-! ## Package `internal/controller/endpoint` (endpoint.go) -/

namespace endpoint

/-- Constant `errNotEndpoint`. -/
def errNotEndpoint : String := "managed resource is not an argocd endpoint custom resource"

/-- Type `managed.ExternalObservation`, with the fields the code sets; the zero value has both
fields false. -/
structure ExternalObservation where
  ResourceExists : Bool
  ResourceUpToDate : Bool
  deriving DecidableEq, Repr

/-- The zero value `managed.ExternalObservation{}`. -/
def ExternalObservation.zero : ExternalObservation :=
  { ResourceExists := false, ResourceUpToDate := false }

/-- Type `external`: the session of the pass (the store client, logger and recorder are the
world). -/
structure external where
  cfg : accounts.TokenProviderOptions
  deriving DecidableEq, Repr

/-- Method `Debug` of the logger. -/
def logDebug (w : World) (msg : String) (keysAndValues : List String) : World :=
  { w with logs := w.logs ++ [(msg, keysAndValues)] }

/-- Method `Eventf` of the recorder, with the message already formatted. -/
def eventf (w : World) (eventType reason message : String) : World :=
  { w with events := w.events ++ [{ EventType := eventType, Reason := reason, Message := message }] }

/-- Constant `corev1.EventTypeNormal`. -/
def EventTypeNormal : String := "Normal"

/-- Method `connector.Connect`. -/
def Connect (env : Env) (w : World) (mg : Managed) : (Option external × Option GoError) × World :=
  match mg with
  | .other _ => ((none, some (.text errNotEndpoint)), w)
  | .endpoint _ =>
    match clients.GetConfig env w mg with
    | ((some cfg, none), w1) =>
      ((some { cfg := cfg }, none), logDebug w1 "Created session" ["token", cfg.AuthToken])
    | ((_, some err), w1) => ((none, some err), w1)
    | ((none, none), w1) =>
      ((none, some (.panic "invalid memory address or nil pointer dereference")), w1)

/-- Method `external.Observe`; the managed resource is returned with the conditions set on it.
The test `len(token) > 0` is on the number of bytes, which is positive exactly when the number
of characters is. -/
def Observe (env : Env) (w : World) (_e : external) (mg : Managed) :
    (ExternalObservation × Option GoError) × Managed × World :=
  match mg with
  | .other _ => ((ExternalObservation.zero, some (.text errNotEndpoint)), mg, w)
  | .endpoint cr =>
    let spec := cr.ForProvider
    match clients.GetEndpointSecret env w (some spec.WriteSecretToRef) with
    | ((_, some err), w1) => ((ExternalObservation.zero, some err), mg, w1)
    | ((token, none), w1) =>
      if token.length > 0 then
        (({ ResourceExists := true, ResourceUpToDate := true }, none),
          .endpoint (cr.SetConditions Available), w1)
      else
        (({ ResourceExists := false, ResourceUpToDate := true }, none), mg, w1)

/-- Method `external.Create` (the `managed.ExternalCreation` it returns is always empty). -/
def Create (env : Env) (w : World) (e : external) (mg : Managed) :
    Option GoError × Managed × World :=
  match mg with
  | .other _ => (some (.text errNotEndpoint), mg, w)
  | .endpoint cr =>
    let cr := cr.SetConditions Creating
    let spec := cr.ForProvider
    match accounts.GenerateToken env w e.cfg spec.Account 0 with
    | ((_, some err), w1) => (some err, .endpoint cr, w1)
    | ((token, none), w1) =>
      let w2 := logDebug w1 "Generated argocd token" ["account", spec.Account]
      let w3 := eventf w2 EventTypeNormal "TokenCreated"
        ("Generated argocd token for account: " ++ spec.Account)
      match clients.CreateEndpointSecret env w3
          { Token := token, TargetURL := e.cfg.ServerUrl,
            SecretRef := some spec.WriteSecretToRef } with
      | (some err, w4) => (some err, .endpoint cr, w4)
      | (none, w4) =>
        let w5 := logDebug w4 "Saved argocd token as secret"
          ["account", spec.Account, "secret", spec.WriteSecretToRef.Name]
        let w6 := eventf w5 EventTypeNormal "TokenSaved"
          ("Saved argocd token for account \x27" ++ spec.Account ++ "\x27 into \x27"
            ++ spec.WriteSecretToRef.Name ++ "\x27 secret")
        (none, .endpoint cr, w6)

/-- Method `external.Update`: a no-op. -/
def Update (_env : Env) (w : World) (_e : external) (mg : Managed) :
    Option GoError × Managed × World :=
  (none, mg, w)

/-- Method `external.Delete`. -/
def Delete (env : Env) (w : World) (_e : external) (mg : Managed) :
    Option GoError × Managed × World :=
  match mg with
  | .other _ => (some (.text errNotEndpoint), mg, w)
  | .endpoint cr =>
    let cr := cr.SetConditions Deleting
    let spec := cr.ForProvider
    let w1 := logDebug w "Deleting argocd token secret"
      ["account", spec.Account, "secret", spec.WriteSecretToRef.Name]
    match clients.DeleteEndpointSecret env w1 (some spec.WriteSecretToRef) with
    | (none, w2) =>
      let w3 := eventf w2 EventTypeNormal "TokenDeleted"
        ("Deleted argocd token for account \x27" ++ spec.Account ++ "\x27 into \x27"
          ++ spec.WriteSecretToRef.Name ++ "\x27 secret")
      (none, .endpoint cr, w3)
    | (some err, w2) => (some err, .endpoint cr, w2)

end endpoint

/-! ## Frames -/

/-- The parts of the world that the HTTP client leaves alone: the store, the record of store
calls, the events and the log. -/
def World.sameStore (w w1 : World) : Prop :=
  w1.kube = w.kube ∧ w1.calls = w.calls ∧ w1.events = w.events ∧ w1.logs = w.logs

/-- The secret `CreateEndpointSecret` builds for a reference, a token and a target URL. -/
def clients.endpointSecret (ref : SecretReference) (token targetURL : String) : Secret :=
  { Name := ref.Name, Namespace := ref.Namespace,
    Labels := [("app.kubernetes.io/created-by", "krateo"), ("category", "delivery"),
               ("group", "endpoint"), ("icon", "fa-solid_fa-truck"), ("type", "argocd")],
    Data := [],
    StringData := [("bearer", token), ("target", targetURL)] }

/-- The request `CreateSession` builds for a user name and a password. -/
def accounts.sessionRequest (tp : accounts.tokenProvider) (user pass : String) : Request :=
  { Method := "POST", URL := tp.serverAddr ++ "/api/v1/session",
    Header := [("Content-Type", "application/json; charset=UTF-8")],
    Body := some (.obj [("password", .str pass), ("username", .str user)]) }

/-- The request `CreateTokenForAccount` builds for an account name. -/
def accounts.tokenRequest (tp : accounts.tokenProvider) (name : String) : Request :=
  { Method := "POST", URL := tp.serverAddr ++ "/api/v1/account/" ++ name ++ "/token",
    Header := [("Content-Type", "application/json; charset=UTF-8"),
               ("Authorization", "Bearer " ++ tp.authToken)],
    Body := none }

/-- The JSON object whose members are the given strings, in order. -/
def Json.ofStrings (members : StringMap) : Json :=
  .obj (members.map (fun p => (p.1, Json.str p.2)))

/-- The value of the member `name` of a JSON object of strings as Go decodes it into a map:
the value of the last member of that name, or the zero value `""` when there is none. -/
def Json.field (members : StringMap) (name : String) : String :=
  (members.reverse.lookup name).getD ""

/-- Go `url.URL.RawQuery` of a parsed URL: the text after the first `?`, the fragment (from the
first `#` on) set aside. -/
def Go.urlRawQuery (url : String) : String :=
  String.mk (((url.data.takeWhile (fun c => c != '#')).dropWhile (fun c => c != '?')).drop 1)

/-- The pieces of a text between the occurrences of a separator. -/
def Go.splitChars (sep : Char) : List Char → List (List Char)
  | [] => [[]]
  | c :: cs =>
    if c == sep then
      [] :: splitChars sep cs
    else
      match splitChars sep cs with
      | [] => [[c]]
      | piece :: pieces => (c :: piece) :: pieces

/-- The values a URL gives to a query parameter: the raw query is cut at each `&`, and each
piece that is not empty at its first `=` into a name and a value (names and values are taken
as written). -/
def Go.queryValues (url name : String) : List String :=
  ((Go.splitChars '&' (Go.urlRawQuery url).data).filter (fun piece =>
      !piece.isEmpty && String.mk (piece.takeWhile (fun c => c != '=')) == name)).map
    (fun piece => String.mk ((piece.dropWhile (fun c => c != '=')).drop 1))

/-- The expiration parameters a request carries: the values its URL gives to the query
parameter `expiresIn`, and the members `expiresIn` of its body when that is a JSON object. -/
def Request.expirations (req : Request) : List Json :=
  (Go.queryValues req.URL "expiresIn").map Json.str
    ++ (match req.Body with
        | some (.obj members) =>
          (members.filter (fun p => p.1 == "expiresIn")).map (fun p => p.2)
        | _ => [])

/-- An expiration of zero: the number `0`, also when written as a string. -/
def Json.isZero : Json → Bool
  | .num "0" => true
  | .str "0" => true
  | _ => false

/-! ## Sample values

The values of the scenarios of the specification: account `team-a`, secret reference
`x/tok-a`, server `https://argocd.example`, session token `abc`, minted token `xyz`. -/

namespace Sample

/-- The endpoint of account `team-a` writing to the secret `x/tok-a`. -/
def cr : Endpoint :=
  { ProviderConfigReference := some "default",
    ForProvider := { ID := "", Account := "team-a",
                     WriteSecretToRef := { Name := "tok-a", Namespace := "x" } },
    Conditions := [] }

/-- The endpoint of an account whose name spells a query, `team-a?expiresIn=5`. -/
def crQuery : Endpoint :=
  { cr with ForProvider := { cr.ForProvider with Account := "team-a?expiresIn=5" } }

/-- The session of a pass: server `https://argocd.example`, session token `abc`. -/
def session : endpoint.external :=
  { cfg := { ServerUrl := "https://argocd.example", UserAgent := "", AuthToken := "abc",
             DebugClient := false } }

/-- A response with status 200 whose body is the JSON text of `v`. -/
def ok (v : Json) : Response :=
  { StatusCode := 200, Status := "200 OK", Body := .json v }

/-- The response of a server that mints the token `xyz`. -/
def minted : Response := ok (.obj [("token", .str "xyz")])

/-- The response of a server that answers 200 with an object without a `token` member. -/
def tokenless : Response := ok (.obj [])

/-- The secret `x/tok-a` with the given data. -/
def secret (data : StringMap) : Secret :=
  { Secret.zero with Name := "tok-a", Namespace := "x", Data := data }

/-- A provider configuration with the given credentials. -/
def providerConfig (credentials : Option ProviderCredentials) : ProviderConfig :=
  { Name := "default",
    Spec := { ServerUrl := "https://argocd.example", UserAgent := "", DebugClient := none,
              Credentials := credentials } }

/-- The response of a server that opens the session `abc`. -/
def loggedIn : Response := ok (.obj [("token", .str "abc")])

/-- A response with the given status and no readable JSON body. -/
def refused (code : Nat) (status : String) : Response :=
  { StatusCode := code, Status := status, Body := .malformed "unexpected end of JSON input" }

/-- A response with status 500 whose body cannot be read. -/
def broken : Response :=
  { StatusCode := 500, Status := "500 Internal Server Error",
    Body := .unreadable "unexpected EOF" }

/-- A token provider for `https://argocd.example` with the session token `abc`, in debug
mode. -/
def debugProvider : accounts.tokenProvider :=
  { serverAddr := "https://argocd.example", userAgent := accounts.defaultUserAgent,
    authToken := "abc", debugClient := true }

/-- A token provider for `https://argocd.example` with the session token `abc`. -/
def provider : accounts.tokenProvider :=
  { serverAddr := "https://argocd.example", userAgent := accounts.defaultUserAgent,
    authToken := "abc", debugClient := false }

/-- A store that holds the provider configuration `default` with the given user agent and
debug flag, whose credentials name the secret `argocd/admin` with the key `password`, and
that secret with the password `pw`. -/
def world (userAgent : String) (debugClient : Option Bool) : World :=
  { kube :=
      { secrets := [{ Secret.zero with Name := "admin", Namespace := "argocd",
                                       Data := [("password", "pw")] }],
        providerConfigs :=
          [{ Name := "default",
             Spec := { ServerUrl := "https://argocd.example", UserAgent := userAgent,
                       DebugClient := debugClient,
                       Credentials := some
                         { Source := "Secret",
                           SecretRef := some { Name := "admin", Namespace := "argocd",
                                               Key := "password" } } } }] },
    calls := [], requests := [], events := [], logs := [], dumps := [], mintCalls := [] }

end Sample

/-! ## Properties -/

open endpoint clients accounts

/-- A condition that has just been set is among the conditions of the resource. -/
theorem Endpoint.mem_SetConditions (cr : Endpoint) (c : Condition) :
    c ∈ (cr.SetConditions c).Conditions := by
  unfold Endpoint.SetConditions
  split
  · rename_i h
    obtain ⟨x, hx, hxc⟩ := List.any_eq_true.mp h
    simp only [List.mem_map]
    exact ⟨x, hx, by simp [hxc]⟩
  · simp

/-- The string length test of the code is the test for the empty string. -/
theorem length_pos_iff_ne_empty (s : String) : s.length > 0 ↔ s ≠ "" := by
  cases s with
  | mk l =>
    cases l with
    | nil => simp
    | cons a t =>
      constructor
      · intro _ h
        exact absurd (congrArg String.data h) (by simp)
      · intro _
        simp [String.length]

/-- Reading a secret changes nothing in the world but the record of store calls. -/
theorem kubeGetSecret_world (env : Env) (w : World) (ns name : String) :
    (kubeGetSecret env w ns name).2 = { w with calls := w.calls ++ [KubeOp.getSecret ns name] } := by
  unfold kubeGetSecret
  cases env.kubeFault (.getSecret ns name) <;> simp
  cases w.kube.findSecret ns name <;> simp

/-- C1: whenever the read of the secret named by the endpoint's writeSecretToRef does not fail,
Observe returns exists = true, upToDate = true and sets the Available condition if the value
read is non-empty, returns exists = false, upToDate = true if it is empty, and in both cases
ResourceUpToDate is true. -/
theorem observe_reports_value_read (env : Env) (w w1 : World) (e : external) (cr : Endpoint)
    (token : String)
    (hread : GetEndpointSecret env w (some cr.ForProvider.WriteSecretToRef) = ((token, none), w1)) :
    (token ≠ "" →
      Observe env w e (.endpoint cr)
        = (({ ResourceExists := true, ResourceUpToDate := true }, none),
            .endpoint (cr.SetConditions Available), w1)
      ∧ Available ∈ (cr.SetConditions Available).Conditions)
    ∧ (token = "" →
      Observe env w e (.endpoint cr)
        = (({ ResourceExists := false, ResourceUpToDate := true }, none), .endpoint cr, w1))
    ∧ (Observe env w e (.endpoint cr)).1.1.ResourceUpToDate = true := by
  have hlen := length_pos_iff_ne_empty token
  refine ⟨fun hne => ⟨?_, Endpoint.mem_SetConditions cr Available⟩, fun he => ?_, ?_⟩
  · simp only [Observe, hread]
    rw [if_pos (hlen.mpr hne)]
  · simp only [Observe, hread]
    rw [if_neg (fun h => (hlen.mp h) he)]
  · simp only [Observe, hread]
    split <;> rfl

/-- Witness for C1: on a store whose secret `x/tok-a` holds the bearer value `xyz`, the read
does not fail and Observe reports exists = true, upToDate = true, and sets Available. -/
theorem observe_reports_value_read_witness :
    Observe (Env.quiet Sample.minted) (World.init [Sample.secret [("bearer", "xyz")]])
        Sample.session (.endpoint Sample.cr)
      = (({ ResourceExists := true, ResourceUpToDate := true }, none),
          .endpoint (Sample.cr.SetConditions Available),
          { World.init [Sample.secret [("bearer", "xyz")]] with
            calls := [KubeOp.getSecret "x" "tok-a"] })
    ∧ Available ∈ (Sample.cr.SetConditions Available).Conditions :=
  (observe_reports_value_read (Env.quiet Sample.minted)
    (World.init [Sample.secret [("bearer", "xyz")]])
    { World.init [Sample.secret [("bearer", "xyz")]] with calls := [KubeOp.getSecret "x" "tok-a"] }
    Sample.session Sample.cr "xyz" rfl).1 (by decide)

/-- Counterexample to C2 as stated: the store holds a secret `x/tok-a` without a bearer value;
the secret exists, yet Observe reports exists = false. -/
theorem observe_exists_iff_secret_exists_fails :
    ¬ ((Observe (Env.quiet Sample.minted) (World.init [Sample.secret []]) Sample.session
          (.endpoint Sample.cr)).1.1.ResourceExists = true
        ↔ ((World.init [Sample.secret []]).kube.findSecret "x" "tok-a").isSome = true) := by
  decide

/-- C2, amended: Observe reports exists = true if and only if the read of the secret does not
fail for a reason of the store, a secret with the namespace and name of the endpoint's
writeSecretToRef exists in the store, and the value it holds under the key `bearer` is not
empty. -/
theorem observe_exists_iff_bearer_nonempty (env : Env) (w : World) (e : external)
    (cr : Endpoint) :
    (Observe env w e (.endpoint cr)).1.1.ResourceExists = true
      ↔ env.kubeFault
            (.getSecret cr.ForProvider.WriteSecretToRef.Namespace
              cr.ForProvider.WriteSecretToRef.Name) = none
          ∧ ∃ s, w.kube.findSecret cr.ForProvider.WriteSecretToRef.Namespace
                  cr.ForProvider.WriteSecretToRef.Name = some s
              ∧ mapIndex s.Data "bearer" ≠ "" := by
  simp only [Observe, GetEndpointSecret, kubeGetSecret, tokenKey]
  cases hf : env.kubeFault (.getSecret cr.ForProvider.WriteSecretToRef.Namespace
      cr.ForProvider.WriteSecretToRef.Name) with
  | some err =>
    cases err <;> simp [IsNotFound, ExternalObservation.zero]
  | none =>
    cases hs : w.kube.findSecret cr.ForProvider.WriteSecretToRef.Namespace
        cr.ForProvider.WriteSecretToRef.Name with
    | none => simp [IsNotFound]
    | some s =>
      have hlen := length_pos_iff_ne_empty (mapIndex s.Data "bearer")
      by_cases h : (mapIndex s.Data "bearer").length > 0
      · simp [h, hlen.mp h]
      · have h2 : mapIndex s.Data "bearer" = "" := by
          by_contra hne
          exact h (hlen.mpr hne)
        simp [h2]

theorem debug_sameStore (enabled : Bool) (env : Env) (w : World) (d : Dump) :
    w.sameStore (debug enabled env w d).2 := by
  unfold debug World.sameStore
  cases enabled
  · simp
  · cases dumpError env d <;> simp

theorem World.sameStore_trans {a b c : World} (h1 : a.sameStore b) (h2 : b.sameStore c) :
    a.sameStore c := by
  unfold World.sameStore at *
  obtain ⟨h11, h12, h13, h14⟩ := h1
  obtain ⟨h21, h22, h23, h24⟩ := h2
  exact ⟨h21.trans h11, h22.trans h12, h23.trans h13, h24.trans h14⟩

/-- Sending a request leaves the store, the store calls, the events and the log as they
were. -/
theorem httpDo_sameStore (env : Env) (w : World) (req : Request) :
    w.sameStore (httpDo env w req).2 := by
  simp [httpDo, World.sameStore]

/-- The mint call of the client leaves the store, the store calls, the events and the log as
they were. -/
theorem CreateTokenForAccount_sameStore (tp : tokenProvider) (env : Env) (w : World)
    (name : String) : w.sameStore (tp.CreateTokenForAccount env w name).2 := by
  simp only [tokenProvider.CreateTokenForAccount]
  cases env.newRequestError "POST" (tp.serverAddr ++ "/api/v1/account/" ++ name ++ "/token") with
  | some err => simp [World.sameStore]
  | none =>
    simp only
    generalize (⟨"POST", tp.serverAddr ++ "/api/v1/account/" ++ name ++ "/token",
      mapSet (mapSet [] "Content-Type" "application/json; charset=UTF-8") "Authorization"
        ("Bearer " ++ tp.authToken), none⟩ : Request) = req
    have h1 := debug_sameStore tp.debugClient env w (.request req)
    rcases hd1 : debug tp.debugClient env w (.request req) with ⟨r1, w1⟩
    rw [hd1] at h1
    cases r1 with
    | some exit => exact h1
    | none =>
      simp only
      have h2 := World.sameStore_trans h1 (httpDo_sameStore env w1 req)
      rcases hdo : httpDo env w1 req with ⟨r2, w2⟩
      rw [hdo] at h2
      cases r2 with
      | inl err => exact h2
      | inr res =>
        simp only
        have h3 := World.sameStore_trans h2 (debug_sameStore tp.debugClient env w2 (.response res))
        rcases hd2 : debug tp.debugClient env w2 (.response res) with ⟨r3, w3⟩
        rw [hd2] at h3
        cases r3 with
        | some exit => exact h3
        | none =>
          simp only
          split
          · exact h3
          · split
            · exact h3
            · exact h3
            · split <;> exact h3

/-- Minting a token leaves the store, the store calls, the events and the log as they were. -/
theorem GenerateToken_sameStore (env : Env) (w : World) (opts : TokenProviderOptions)
    (name : String) (expiresIn : Int) :
    w.sameStore (GenerateToken env w opts name expiresIn).2 := by
  unfold GenerateToken
  cases NewTokenProvider opts with
  | inl err => simp [World.sameStore]
  | inr cli =>
    exact World.sameStore_trans (by simp [World.sameStore])
      (CreateTokenForAccount_sameStore _ env _ name)

/-- Setting a condition leaves the parameters of the endpoint as they were. -/
theorem Endpoint.SetConditions_ForProvider (cr : Endpoint) (c : Condition) :
    (cr.SetConditions c).ForProvider = cr.ForProvider := by
  unfold Endpoint.SetConditions
  split <;> rfl

/-- The secret built by `CreateEndpointSecret` is `endpointSecret`, and the call changes the
world as the store's create does. -/
theorem CreateEndpointSecret_eq (env : Env) (w : World) (ref : SecretReference)
    (token targetURL : String) :
    CreateEndpointSecret env w { Token := token, TargetURL := targetURL, SecretRef := some ref }
      = (((kubeCreateSecret env w (endpointSecret ref token targetURL)).1).map GoError.api,
          (kubeCreateSecret env w (endpointSecret ref token targetURL)).2) := by
  simp only [CreateEndpointSecret, endpointSecret, Secret.zero, tokenKey]
  split <;> rename_i h <;> simp [h]

/-- A successful Create: the mint call returned a token without error, the store held no
secret under the reference, and the store now holds, after its former secrets, the stored form
of the secret built from the token and the server URL of the session. -/
theorem Create_ok (env : Env) (w : World) (e : external) (cr : Endpoint)
    (h : (Create env w e (.endpoint cr)).1 = none) :
    (GenerateToken env w e.cfg cr.ForProvider.Account 0).1.2 = none
      ∧ w.kube.findSecret cr.ForProvider.WriteSecretToRef.Namespace
          cr.ForProvider.WriteSecretToRef.Name = none
      ∧ (Create env w e (.endpoint cr)).2.2.kube.secrets
          = w.kube.secrets ++ [(endpointSecret cr.ForProvider.WriteSecretToRef
              (GenerateToken env w e.cfg cr.ForProvider.Account 0).1.1 e.cfg.ServerUrl).stored] := by
  have hs := GenerateToken_sameStore env w e.cfg cr.ForProvider.Account 0
  revert h
  simp only [Create, Endpoint.SetConditions_ForProvider, CreateEndpointSecret_eq]
  rcases hG : GenerateToken env w e.cfg cr.ForProvider.Account 0 with ⟨⟨token, err⟩, w1⟩
  rw [hG] at hs
  obtain ⟨hk, -, -, -⟩ := hs
  simp only at hk
  cases err with
  | some err => simp
  | none =>
    simp only [kubeCreateSecret, eventf, logDebug, endpointSecret, hk]
    cases env.kubeFault (KubeOp.createSecret _) with
    | some err => simp
    | none =>
      simp only
      cases hf : w.kube.findSecret cr.ForProvider.WriteSecretToRef.Namespace
          cr.ForProvider.WriteSecretToRef.Name with
      | some s => simp
      | none => simp

/-- The stored form of the secret built for a token holds the token under `bearer`. -/
theorem endpointSecret_stored_bearer (ref : SecretReference) (token targetURL : String) :
    mapIndex (endpointSecret ref token targetURL).stored.Data "bearer" = token := by
  simp [Secret.stored, endpointSecret, mapSet, mapIndex, List.lookup]

/-- Observe on a store that holds, under the reference, a secret with a non-empty bearer
value, when the read does not fail for a reason of the store. -/
theorem Observe_found (env : Env) (w : World) (e : external) (cr : Endpoint) (s : Secret)
    (hfault : env.kubeFault (.getSecret cr.ForProvider.WriteSecretToRef.Namespace
      cr.ForProvider.WriteSecretToRef.Name) = none)
    (hfind : w.kube.findSecret cr.ForProvider.WriteSecretToRef.Namespace
      cr.ForProvider.WriteSecretToRef.Name = some s)
    (hval : mapIndex s.Data "bearer" ≠ "") :
    (Observe env w e (.endpoint cr)).1
      = ({ ResourceExists := true, ResourceUpToDate := true }, none) := by
  simp only [Observe, GetEndpointSecret, kubeGetSecret, tokenKey, hfault, hfind]
  rw [if_pos ((length_pos_iff_ne_empty _).mpr hval)]

/-- Observe on a store that holds no secret under the reference. -/
theorem Observe_absent (env : Env) (w : World) (e : external) (cr : Endpoint)
    (hfind : w.kube.findSecret cr.ForProvider.WriteSecretToRef.Namespace
      cr.ForProvider.WriteSecretToRef.Name = none) :
    (Observe env w e (.endpoint cr)).1.1.ResourceExists = false
      ∧ (env.kubeFault (.getSecret cr.ForProvider.WriteSecretToRef.Namespace
            cr.ForProvider.WriteSecretToRef.Name) = none →
          (Observe env w e (.endpoint cr)).1
            = ({ ResourceExists := false, ResourceUpToDate := true }, none)) := by
  simp only [Observe, GetEndpointSecret, kubeGetSecret, tokenKey, hfind]
  cases env.kubeFault (.getSecret cr.ForProvider.WriteSecretToRef.Namespace
      cr.ForProvider.WriteSecretToRef.Name) with
  | some err => cases err <;> simp [IsNotFound, ExternalObservation.zero]
  | none => simp [IsNotFound]

/-- Counterexample to C3 as stated: the server answers the mint call with status 200 and an
object without a `token` member; Create returns no error and stores an empty bearer value, and
the Observe that follows reports exists = false. -/
theorem create_then_observe_fails_on_empty_token :
    (Create (Env.quiet Sample.tokenless) (World.init []) Sample.session
        (.endpoint Sample.cr)).1 = none
    ∧ (Observe (Env.quiet Sample.tokenless)
        (Create (Env.quiet Sample.tokenless) (World.init []) Sample.session
          (.endpoint Sample.cr)).2.2
        Sample.session (.endpoint Sample.cr)).1
      = ({ ResourceExists := false, ResourceUpToDate := true }, none) := by
  decide

/-- C3, amended: when Create returns no error and the token returned by the mint call is not
empty, an Observe of the same endpoint on the resulting store, whose read does not fail for a
reason of the store, returns exists = true (and upToDate = true, without error). -/
theorem create_then_observe_exists (env env2 : Env) (w : World) (e e2 : external)
    (cr cr2 : Endpoint)
    (hsame : cr2.ForProvider = cr.ForProvider)
    (hcreate : (Create env w e (.endpoint cr)).1 = none)
    (htoken : (GenerateToken env w e.cfg cr.ForProvider.Account 0).1.1 ≠ "")
    (hread : env2.kubeFault (.getSecret cr.ForProvider.WriteSecretToRef.Namespace
      cr.ForProvider.WriteSecretToRef.Name) = none) :
    (Observe env2 (Create env w e (.endpoint cr)).2.2 e2 (.endpoint cr2)).1
      = ({ ResourceExists := true, ResourceUpToDate := true }, none) := by
  obtain ⟨-, habsent, hsecrets⟩ := Create_ok env w e cr hcreate
  apply Observe_found env2 _ e2 cr2
    (endpointSecret cr.ForProvider.WriteSecretToRef
      (GenerateToken env w e.cfg cr.ForProvider.Account 0).1.1 e.cfg.ServerUrl).stored
  · rw [hsame]; exact hread
  · rw [hsame]
    unfold Kube.findSecret at habsent ⊢
    rw [hsecrets, List.find?_append, habsent]
    simp [Secret.stored, endpointSecret]
  · rw [endpointSecret_stored_bearer]; exact htoken

/-- Witness for C3: the server mints `xyz`; Create succeeds on the empty store and the Observe
that follows reports exists = true. -/
theorem create_then_observe_exists_witness :
    (Observe (Env.quiet Sample.minted)
        (Create (Env.quiet Sample.minted) (World.init []) Sample.session
          (.endpoint Sample.cr)).2.2
        Sample.session (.endpoint Sample.cr)).1
      = ({ ResourceExists := true, ResourceUpToDate := true }, none) :=
  create_then_observe_exists (Env.quiet Sample.minted) (Env.quiet Sample.minted) (World.init [])
    Sample.session Sample.session Sample.cr Sample.cr rfl (by decide) (by decide) rfl

/-- A successful Delete: the store held a secret under the reference, and the store now holds
its former secrets without those under the reference. -/
theorem Delete_ok (env : Env) (w : World) (e : external) (cr : Endpoint)
    (h : (Delete env w e (.endpoint cr)).1 = none) :
    (Delete env w e (.endpoint cr)).2.2.kube.secrets
      = w.kube.secrets.filter (fun s =>
          !(s.Namespace == cr.ForProvider.WriteSecretToRef.Namespace
            && s.Name == cr.ForProvider.WriteSecretToRef.Name)) := by
  revert h
  simp only [Delete, Endpoint.SetConditions_ForProvider, DeleteEndpointSecret, kubeDeleteSecret,
    logDebug, eventf]
  cases env.kubeFault (KubeOp.deleteSecret _ _) with
  | some err => simp
  | none =>
    simp only
    cases w.kube.findSecret cr.ForProvider.WriteSecretToRef.Namespace
        cr.ForProvider.WriteSecretToRef.Name with
    | some s => simp
    | none => simp

/-- C4: when Delete returns no error, an Observe of the same endpoint on the resulting store
returns exists = false, whatever the environment of that Observe; and when its read does not
fail for a reason of the store, it returns exists = false, upToDate = true without error. -/
theorem delete_then_observe_absent (env env2 : Env) (w : World) (e e2 : external)
    (cr cr2 : Endpoint)
    (hsame : cr2.ForProvider = cr.ForProvider)
    (hdelete : (Delete env w e (.endpoint cr)).1 = none) :
    (Observe env2 (Delete env w e (.endpoint cr)).2.2 e2 (.endpoint cr2)).1.1.ResourceExists
        = false
      ∧ (env2.kubeFault (.getSecret cr.ForProvider.WriteSecretToRef.Namespace
            cr.ForProvider.WriteSecretToRef.Name) = none →
          (Observe env2 (Delete env w e (.endpoint cr)).2.2 e2 (.endpoint cr2)).1
            = ({ ResourceExists := false, ResourceUpToDate := true }, none)) := by
  have hsecrets := Delete_ok env w e cr hdelete
  have habsent : (Delete env w e (.endpoint cr)).2.2.kube.findSecret
      cr2.ForProvider.WriteSecretToRef.Namespace cr2.ForProvider.WriteSecretToRef.Name
        = none := by
    unfold Kube.findSecret
    rw [hsecrets, hsame, List.find?_eq_none]
    intro s hs
    have hkeep := (List.mem_filter.mp hs).2
    simp only [Bool.not_eq_true_eq_eq_false, Bool.not_eq_true', Bool.not_eq_true] at hkeep ⊢
    simpa using hkeep
  have h := Observe_absent env2 _ e2 cr2 habsent
  rw [hsame] at h
  exact h

/-- Witness for C4: Delete succeeds on a store that holds the secret `x/tok-a`, and the Observe
that follows reports exists = false. -/
theorem delete_then_observe_absent_witness :
    (Observe (Env.quiet Sample.minted)
        (Delete (Env.quiet Sample.minted) (World.init [Sample.secret [("bearer", "xyz")]])
          Sample.session (.endpoint Sample.cr)).2.2
        Sample.session (.endpoint Sample.cr)).1.1.ResourceExists = false :=
  (delete_then_observe_absent (Env.quiet Sample.minted) (Env.quiet Sample.minted)
    (World.init [Sample.secret [("bearer", "xyz")]]) Sample.session Sample.session
    Sample.cr Sample.cr rfl (by decide)).1

/-- C5: GetInitialAdminPassword reads the secret named by the reference it resolves; for nil
credentials, and for credentials of source Secret with a nil secretRef, the reference is the
default one (name `argocd-initial-admin-secret`, empty namespace, key `password`); for
credentials of source Secret with a secretRef, a field of the reference keeps its default
whenever the field of the secretRef is empty after trimming, the name and namespace are
replaced when it is not, and a secretRef that gives only a namespace resolves to that
namespace (trimmed) with the default name and the default key. -/
theorem initial_admin_ref_overrides (env : Env) (w : World) (pc : ProviderConfig) :
    (∀ ref, initialAdminSecretRef pc = .inr ref →
        GetInitialAdminPassword env w pc = getSecret env w (some ref))
    ∧ (pc.Spec.Credentials = none →
        initialAdminSecretRef pc
          = .inr { Name := "argocd-initial-admin-secret", Namespace := "", Key := "password" })
    ∧ (∀ creds, pc.Spec.Credentials = some creds → creds.Source = "Secret" →
        (creds.SecretRef = none →
          initialAdminSecretRef pc
            = .inr { Name := "argocd-initial-admin-secret", Namespace := "", Key := "password" })
        ∧ (∀ csr, creds.SecretRef = some csr →
            ∃ ref, initialAdminSecretRef pc = .inr ref
              ∧ (TrimSpace csr.Name = "" → ref.Name = "argocd-initial-admin-secret")
              ∧ (TrimSpace csr.Name ≠ "" → ref.Name = TrimSpace csr.Name)
              ∧ (TrimSpace csr.Namespace = "" → ref.Namespace = "")
              ∧ (TrimSpace csr.Namespace ≠ "" → ref.Namespace = TrimSpace csr.Namespace)
              ∧ (TrimSpace csr.Key = "" → ref.Key = "password")
              ∧ (csr.Name = "" → csr.Key = "" →
                  ref = { Name := "argocd-initial-admin-secret",
                          Namespace := TrimSpace csr.Namespace, Key := "password" }
                  ∧ (TrimSpace csr.Namespace = csr.Namespace →
                      ref = { Name := "argocd-initial-admin-secret",
                              Namespace := csr.Namespace, Key := "password" })))) := by
  refine ⟨?_, ?_, ?_⟩
  · intro ref h
    simp only [GetInitialAdminPassword, h]
  · intro h
    simp [initialAdminSecretRef, h, argocdInititalAdminSecret, BasicAuthPasswordKey]
  · intro creds hc hs
    refine ⟨?_, ?_⟩
    · intro hr
      simp [initialAdminSecretRef, hc, hs, hr, CredentialsSourceSecret,
        argocdInititalAdminSecret, BasicAuthPasswordKey]
    · intro csr hr
      have hn := length_pos_iff_ne_empty (TrimSpace csr.Name)
      have hns := length_pos_iff_ne_empty (TrimSpace csr.Namespace)
      have hk := length_pos_iff_ne_empty (TrimSpace csr.Key)
      have hempty : TrimSpace "" = "" := by decide
      simp only [initialAdminSecretRef, hc, hs, hr, CredentialsSourceSecret,
        argocdInititalAdminSecret, BasicAuthPasswordKey, hn, hns, hk]
      by_cases h1 : TrimSpace csr.Name = "" <;> by_cases h2 : TrimSpace csr.Namespace = ""
        <;> by_cases h3 : TrimSpace csr.Key = ""
      all_goals simp [h1, h2, h3]
      all_goals
        intro hname hkey
        simp [hname, hkey, hempty] at h1 h3

/-- Witness for C5: a secretRef that gives only the namespace `argocd` resolves to the default
name and key in the namespace `argocd`. -/
theorem initial_admin_ref_overrides_witness :
    ∃ ref, initialAdminSecretRef (Sample.providerConfig
        (some { Source := "Secret",
                SecretRef := some { Name := "", Namespace := "argocd", Key := "" } }))
          = .inr ref
      ∧ ref = { Name := "argocd-initial-admin-secret", Namespace := "argocd",
                Key := "password" } := by
  obtain ⟨ref, href, -, -, -, -, -, honly⟩ :=
    ((initial_admin_ref_overrides (Env.quiet Sample.minted) (World.init [])
      (Sample.providerConfig
        (some { Source := "Secret",
                SecretRef := some { Name := "", Namespace := "argocd", Key := "" } }))).2.2
      { Source := "Secret", SecretRef := some { Name := "", Namespace := "argocd", Key := "" } }
      rfl rfl).2 { Name := "", Namespace := "argocd", Key := "" } rfl
  exact ⟨ref, href, (honly rfl rfl).2 (by decide)⟩

/-- C6, the code at a failing input: a secretRef with name `" s "` and key `" token "`
resolves to the trimmed name `"s"` but to the untrimmed key `" token "`, which is not the
trimmed key `"token"`. -/
theorem initial_admin_ref_key_untrimmed :
    initialAdminSecretRef (Sample.providerConfig
        (some { Source := "Secret",
                SecretRef := some { Name := " s ", Namespace := "", Key := " token " } }))
      = .inr { Name := "s", Namespace := "", Key := " token " }
    ∧ TrimSpace " token " = "token"
    ∧ " token " ≠ "token" := by
  decide

/-- C7: for credentials whose source is not Secret, GetInitialAdminPassword returns the
error `credentials source ... is not currently supported` and leaves the world as it was: no
store call is made, whatever the secretRef and the other fields are. -/
theorem unsupported_credentials_source (env : Env) (w : World) (pc : ProviderConfig)
    (creds : ProviderCredentials)
    (hcreds : pc.Spec.Credentials = some creds)
    (hsource : creds.Source ≠ "Secret") :
    GetInitialAdminPassword env w pc
      = (("", some (.text ("credentials source " ++ creds.Source
            ++ " is not currently supported"))), w)
    ∧ (GetInitialAdminPassword env w pc).2.calls = w.calls := by
  have h : initialAdminSecretRef pc
      = .inl (.text ("credentials source " ++ creds.Source ++ " is not currently supported")) := by
    simp [initialAdminSecretRef, hcreds, hsource, CredentialsSourceSecret]
  simp [GetInitialAdminPassword, h]

/-- Witness for C7: the source `Environment`, with a secretRef that names an existing
secret. -/
theorem unsupported_credentials_source_witness :
    GetInitialAdminPassword (Env.quiet Sample.minted)
        (World.init [Sample.secret [("password", "pw")]])
        (Sample.providerConfig
          (some { Source := "Environment",
                  SecretRef := some { Name := "tok-a", Namespace := "x", Key := "password" } }))
      = (("", some (.text "credentials source Environment is not currently supported")),
          World.init [Sample.secret [("password", "pw")]]) :=
  (unsupported_credentials_source (Env.quiet Sample.minted)
    (World.init [Sample.secret [("password", "pw")]])
    (Sample.providerConfig
      (some { Source := "Environment",
              SecretRef := some { Name := "tok-a", Namespace := "x", Key := "password" } }))
    { Source := "Environment",
      SecretRef := some { Name := "tok-a", Namespace := "x", Key := "password" } }
    rfl (by decide)).1

/-- C8: for a non-nil reference, GetEndpointSecret returns the empty string without error
when the store reports not-found, returns an error that wraps the store's error for every
other failure of the read, and otherwise returns the value stored under the key `bearer`
without error. -/
theorem get_endpoint_secret_outcomes (env : Env) (w : World) (ref : SecretReference) :
    (∀ w1, kubeGetSecret env w ref.Namespace ref.Name = (.inl .notFound, w1) →
        GetEndpointSecret env w (some ref) = (("", none), w1))
    ∧ (∀ err w1, err ≠ .notFound →
        kubeGetSecret env w ref.Namespace ref.Name = (.inl err, w1) →
        GetEndpointSecret env w (some ref)
          = (("", some (.wrapped (.api err)
              ("cannot get " ++ ref.Name ++ " secret in namespace " ++ ref.Namespace))), w1))
    ∧ (∀ s w1, kubeGetSecret env w ref.Namespace ref.Name = (.inr s, w1) →
        GetEndpointSecret env w (some ref) = ((mapIndex s.Data "bearer", none), w1)) := by
  refine ⟨?_, ?_, ?_⟩
  · intro w1 h
    simp [GetEndpointSecret, h, IsNotFound]
  · intro err w1 hne h
    cases err with
    | notFound => exact absurd rfl hne
    | alreadyExists => simp [GetEndpointSecret, h, IsNotFound]
    | other reason => simp [GetEndpointSecret, h, IsNotFound]
  · intro s w1 h
    simp [GetEndpointSecret, h, tokenKey]

/-- Witness for C8: an empty store reports not-found; a store that is unreachable fails the
read; a store that holds the secret returns it. -/
theorem get_endpoint_secret_outcomes_witness :
    GetEndpointSecret (Env.quiet Sample.minted) (World.init []) (some ⟨"tok-a", "x"⟩)
        = (("", none), { World.init [] with calls := [KubeOp.getSecret "x" "tok-a"] })
    ∧ GetEndpointSecret
          { Env.quiet Sample.minted with kubeFault := fun _ => some (.other "timeout") }
          (World.init []) (some ⟨"tok-a", "x"⟩)
        = (("", some (.wrapped (.api (.other "timeout"))
              "cannot get tok-a secret in namespace x")),
            { World.init [] with calls := [KubeOp.getSecret "x" "tok-a"] })
    ∧ GetEndpointSecret (Env.quiet Sample.minted)
          (World.init [Sample.secret [("bearer", "xyz"), ("target", "https://argocd.example")]])
          (some ⟨"tok-a", "x"⟩)
        = (("xyz", none),
            { World.init [Sample.secret [("bearer", "xyz"), ("target", "https://argocd.example")]]
              with calls := [KubeOp.getSecret "x" "tok-a"] }) :=
  ⟨(get_endpoint_secret_outcomes (Env.quiet Sample.minted) (World.init []) ⟨"tok-a", "x"⟩).1
      _ rfl,
    (get_endpoint_secret_outcomes
      { Env.quiet Sample.minted with kubeFault := fun _ => some (.other "timeout") }
      (World.init []) ⟨"tok-a", "x"⟩).2.1 (.other "timeout") _ (by decide) rfl,
    (get_endpoint_secret_outcomes (Env.quiet Sample.minted)
      (World.init [Sample.secret [("bearer", "xyz"), ("target", "https://argocd.example")]])
      ⟨"tok-a", "x"⟩).2.2
      (Sample.secret [("bearer", "xyz"), ("target", "https://argocd.example")]) _ rfl⟩

/-- The store's create records the call with the secret submitted, and changes nothing else
but the store contents. -/
theorem kubeCreateSecret_frame (env : Env) (w : World) (s : Secret) :
    (kubeCreateSecret env w s).2.calls = w.calls ++ [KubeOp.createSecret s]
      ∧ (kubeCreateSecret env w s).2.requests = w.requests
      ∧ (kubeCreateSecret env w s).2.events = w.events := by
  unfold kubeCreateSecret
  cases env.kubeFault (.createSecret s) with
  | some err => simp
  | none =>
    cases w.kube.findSecret s.Namespace s.Name with
    | some s1 => simp
    | none => simp

/-- Counterexample to C9 as stated: the label set of the secret submitted for the token `xyz`
is not the set of the four labels creator, category, group and type; it also holds the label
`icon`. -/
theorem endpoint_secret_labels_not_four :
    ∃ s, (CreateEndpointSecret (Env.quiet Sample.minted) (World.init [])
            { Token := "xyz", TargetURL := "https://argocd.example",
              SecretRef := some ⟨"tok-a", "x"⟩ }).2.calls = [KubeOp.createSecret s]
      ∧ ("icon", "fa-solid_fa-truck") ∈ s.Labels
      ∧ ¬ (∀ label, label ∈ s.Labels ↔
            label ∈ [("app.kubernetes.io/created-by", "krateo"), ("category", "delivery"),
                     ("group", "endpoint"), ("type", "argocd")]) := by
  refine ⟨endpointSecret ⟨"tok-a", "x"⟩ "xyz" "https://argocd.example", by decide, by decide, ?_⟩
  intro h
  exact absurd ((h ("icon", "fa-solid_fa-truck")).mp (by decide)) (by decide)

/-- C9, amended: for every token, server URL and non-nil reference, CreateEndpointSecret makes
one store call, the create of a secret with the reference's name and namespace, exactly the
two string-data entries `bearer` = the token and `target` = the server URL, no data, and the
five fixed labels creator, category `delivery`, group `endpoint`, icon `fa-solid_fa-truck` and
type `argocd`; in Create, when the mint call returns a token without error, the one store call
is this create with the token returned by the mint call and the server URL of the session. -/
theorem create_endpoint_secret_submits (env : Env) (w : World) :
    (∀ (ref : SecretReference) (token targetURL : String),
      (CreateEndpointSecret env w
          { Token := token, TargetURL := targetURL, SecretRef := some ref }).2.calls
        = w.calls ++ [KubeOp.createSecret
            { Name := ref.Name, Namespace := ref.Namespace,
              Labels := [("app.kubernetes.io/created-by", "krateo"), ("category", "delivery"),
                         ("group", "endpoint"), ("icon", "fa-solid_fa-truck"),
                         ("type", "argocd")],
              Data := [],
              StringData := [("bearer", token), ("target", targetURL)] }])
    ∧ (∀ (e : external) (cr : Endpoint),
        (GenerateToken env w e.cfg cr.ForProvider.Account 0).1.2 = none →
        (Create env w e (.endpoint cr)).2.2.calls
          = w.calls ++ [KubeOp.createSecret
              { Name := cr.ForProvider.WriteSecretToRef.Name,
                Namespace := cr.ForProvider.WriteSecretToRef.Namespace,
                Labels := [("app.kubernetes.io/created-by", "krateo"), ("category", "delivery"),
                           ("group", "endpoint"), ("icon", "fa-solid_fa-truck"),
                           ("type", "argocd")],
                Data := [],
                StringData :=
                  [("bearer", (GenerateToken env w e.cfg cr.ForProvider.Account 0).1.1),
                   ("target", e.cfg.ServerUrl)] }]) := by
  refine ⟨?_, ?_⟩
  · intro ref token targetURL
    rw [CreateEndpointSecret_eq]
    exact (kubeCreateSecret_frame env w _).1
  · intro e cr hmint
    have hs := GenerateToken_sameStore env w e.cfg cr.ForProvider.Account 0
    revert hmint
    simp only [Create, Endpoint.SetConditions_ForProvider, CreateEndpointSecret_eq]
    rcases hG : GenerateToken env w e.cfg cr.ForProvider.Account 0 with ⟨⟨token, err⟩, w1⟩
    rw [hG] at hs
    obtain ⟨-, hcalls, -, -⟩ := hs
    simp only at hcalls
    intro hmint
    simp only at hmint
    subst hmint
    simp only
    have hframe := fun w3 => (kubeCreateSecret_frame env w3
      (endpointSecret cr.ForProvider.WriteSecretToRef token e.cfg.ServerUrl)).1
    generalize hw3 : eventf (logDebug w1 "Generated argocd token"
        ["account", cr.ForProvider.Account]) EventTypeNormal "TokenCreated"
        ("Generated argocd token for account: " ++ cr.ForProvider.Account) = w3
    have hc3 : w3.calls = w.calls := by
      rw [← hw3]
      simpa [eventf, logDebug] using hcalls
    specialize hframe w3
    rcases hK : kubeCreateSecret env w3
      (endpointSecret cr.ForProvider.WriteSecretToRef token e.cfg.ServerUrl) with ⟨r, w4⟩
    rw [hK] at hframe
    simp only at hframe
    cases r with
    | some err =>
      simp only [Option.map, endpointSecret] at hframe ⊢
      rw [hframe, hc3]
    | none =>
      simp only [Option.map, eventf, logDebug, endpointSecret] at hframe ⊢
      rw [hframe, hc3]

/-- Witness for C9: in a Create against a server that mints `xyz`, the secret submitted holds
`xyz` under `bearer` and the server URL of the session under `target`. -/
theorem create_endpoint_secret_submits_witness :
    (Create (Env.quiet Sample.minted) (World.init []) Sample.session
        (.endpoint Sample.cr)).2.2.calls
      = [KubeOp.createSecret
          { Name := "tok-a", Namespace := "x",
            Labels := [("app.kubernetes.io/created-by", "krateo"), ("category", "delivery"),
                       ("group", "endpoint"), ("icon", "fa-solid_fa-truck"),
                       ("type", "argocd")],
            Data := [],
            StringData := [("bearer", "xyz"), ("target", "https://argocd.example")] }] :=
  (create_endpoint_secret_submits (Env.quiet Sample.minted) (World.init [])).2
    Sample.session Sample.cr rfl

/-- The debug output does not depend on the ghost record, and leaves it and the record of
requests as they were. -/
theorem debug_mintCalls (enabled : Bool) (env : Env) (w : World) (d : Dump)
    (m : List (String × Int)) :
    debug enabled env { w with mintCalls := m } d
      = ((debug enabled env w d).1, { (debug enabled env w d).2 with mintCalls := m }) := by
  unfold debug
  cases enabled
  · rfl
  · cases dumpError env d <;> rfl

/-- The debug output leaves the record of requests as it was, and ends the process exactly
when debug mode is on and the dump fails. -/
theorem debug_requests (enabled : Bool) (env : Env) (w : World) (d : Dump) :
    (debug enabled env w d).2.requests = w.requests
      ∧ ((debug enabled env w d).1 = none ↔ (enabled = false ∨ dumpError env d = none)) := by
  unfold debug
  cases enabled
  · simp
  · cases dumpError env d <;> simp

/-- The mint call of the client does not depend on the ghost record, and leaves it as it
was. -/
theorem CreateTokenForAccount_mintCalls (tp : tokenProvider) (env : Env) (w : World)
    (name : String) (m : List (String × Int)) :
    tp.CreateTokenForAccount env { w with mintCalls := m } name
      = ((tp.CreateTokenForAccount env w name).1,
          { (tp.CreateTokenForAccount env w name).2 with mintCalls := m }) := by
  simp only [tokenProvider.CreateTokenForAccount]
  cases env.newRequestError "POST" (tp.serverAddr ++ "/api/v1/account/" ++ name ++ "/token") with
  | some err => rfl
  | none =>
    simp only
    generalize (⟨"POST", tp.serverAddr ++ "/api/v1/account/" ++ name ++ "/token",
      mapSet (mapSet [] "Content-Type" "application/json; charset=UTF-8") "Authorization"
        ("Bearer " ++ tp.authToken), none⟩ : Request) = req
    rw [debug_mintCalls]
    rcases debug tp.debugClient env w (.request req) with ⟨r1, w1⟩
    cases r1 with
    | some exit => rfl
    | none =>
      simp only [httpDo]
      cases env.roundTrip req with
      | inl err => rfl
      | inr res =>
        simp only
        have hd := debug_mintCalls tp.debugClient env
          { w1 with requests := w1.requests ++ [req] } (.response res) m
        simp only at hd
        rw [hd]
        rcases debug tp.debugClient env { w1 with requests := w1.requests ++ [req] }
          (.response res) with ⟨r3, w3⟩
        cases r3 with
        | some exit => rfl
        | none =>
          simp only
          split
          · rfl
          · split
            · rfl
            · rfl
            · split <;> rfl

/-- The requests of the mint call of the client: the one POST without body to the token URL
of the account, unless the request cannot be built or the process ends on its dump. -/
theorem CreateTokenForAccount_requests (tp : tokenProvider) (env : Env) (w : World)
    (name : String) :
    (tp.CreateTokenForAccount env w name).2.requests
      = if env.newRequestError "POST" (tp.serverAddr ++ "/api/v1/account/" ++ name ++ "/token")
              = none
            ∧ (tp.debugClient = false ∨ dumpError env (.request (tokenRequest tp name)) = none)
        then w.requests ++ [tokenRequest tp name]
        else w.requests := by
  have hheader : mapSet (mapSet [] "Content-Type" "application/json; charset=UTF-8")
      "Authorization" ("Bearer " ++ tp.authToken)
        = [("Content-Type", "application/json; charset=UTF-8"),
           ("Authorization", "Bearer " ++ tp.authToken)] := by
    simp [mapSet]
  simp only [tokenProvider.CreateTokenForAccount, hheader, tokenRequest]
  cases env.newRequestError "POST" (tp.serverAddr ++ "/api/v1/account/" ++ name ++ "/token") with
  | some err => simp
  | none =>
    simp only [true_and]
    generalize (⟨"POST", tp.serverAddr ++ "/api/v1/account/" ++ name ++ "/token",
      [("Content-Type", "application/json; charset=UTF-8"),
       ("Authorization", "Bearer " ++ tp.authToken)], none⟩ : Request) = req
    obtain ⟨hreq1, hexit1⟩ := debug_requests tp.debugClient env w (.request req)
    rcases hd1 : debug tp.debugClient env w (.request req) with ⟨r1, w1⟩
    rw [hd1] at hreq1 hexit1
    simp only at hreq1 hexit1
    cases r1 with
    | some exit =>
      have hno : ¬ (tp.debugClient = false ∨ dumpError env (.request req) = none) := by
        intro h
        exact absurd (hexit1.mpr h) (by simp)
      simp [hno, hreq1]
    | none =>
      have hyes := hexit1.mp rfl
      simp only [hyes, if_true, httpDo]
      cases env.roundTrip req with
      | inl err => simp [hreq1]
      | inr res =>
        simp only
        obtain ⟨hreq3, -⟩ := debug_requests tp.debugClient env
          { w1 with requests := w1.requests ++ [req] } (.response res)
        rcases hd3 : debug tp.debugClient env { w1 with requests := w1.requests ++ [req] }
          (.response res) with ⟨r3, w3⟩
        rw [hd3] at hreq3
        simp only at hreq3
        cases r3 with
        | some exit => simp [hreq3, hreq1]
        | none =>
          simp only
          split
          · simp [hreq3, hreq1]
          · split
            · simp [hreq3, hreq1]
            · simp [hreq3, hreq1]
            · split <;> simp [hreq3, hreq1]

/-- GenerateToken enters the call in the ghost record and is otherwise the mint call of the
token provider built from the options, whatever `expiresIn` is. -/
theorem GenerateToken_eq (env : Env) (w : World) (opts : TokenProviderOptions)
    (name : String) (expiresIn : Int) :
    GenerateToken env w opts name expiresIn
      = match NewTokenProvider opts with
        | .inl err => (("", some err), { w with mintCalls := w.mintCalls ++ [(name, expiresIn)] })
        | .inr cli =>
          (((cli.SetAuthToken opts.AuthToken).CreateTokenForAccount env w name).1,
            { ((cli.SetAuthToken opts.AuthToken).CreateTokenForAccount env w name).2 with
              mintCalls := w.mintCalls ++ [(name, expiresIn)] }) := by
  unfold GenerateToken
  cases NewTokenProvider opts with
  | inl err => rfl
  | inr cli =>
    simp only
    rw [CreateTokenForAccount_mintCalls]

/-- A text without `?` has an empty raw query. -/
theorem urlRawQuery_empty (url : String) (h : '?' ∉ url.data) : Go.urlRawQuery url = "" := by
  unfold Go.urlRawQuery
  have hnone : ∀ l : List Char, '?' ∉ l → l.dropWhile (fun c => c != '?') = [] := by
    intro l
    induction l with
    | nil => intro _; rfl
    | cons a t ih =>
      intro hl
      have ha : a ≠ '?' := fun e => hl (by simp [e])
      have ht : '?' ∉ t := fun e => hl (by simp [e])
      have hb : (a != '?') = true := by simpa using ha
      simp only [List.dropWhile, hb]
      exact ih ht
  have hsub : '?' ∉ url.data.takeWhile (fun c => c != '#') :=
    fun e => h ((List.takeWhile_sublist _).subset e)
  rw [hnone _ hsub]
  rfl

/-- The store's create leaves the ghost record as it was. -/
theorem kubeCreateSecret_mintCalls (env : Env) (w : World) (s : Secret) :
    (kubeCreateSecret env w s).2.mintCalls = w.mintCalls := by
  unfold kubeCreateSecret
  cases env.kubeFault (.createSecret s) with
  | some err => simp
  | none =>
    cases w.kube.findSecret s.Namespace s.Name with
    | some s1 => simp
    | none => simp

/-- Counterexample to C10 as stated: for the endpoint of the account `team-a?expiresIn=5`,
the one request Create sends goes to a URL whose query gives `expiresIn` the value `5/token`,
an expiration parameter that is not zero. -/
theorem mint_request_expiration_from_account :
    ∃ req, (Create (Env.quiet Sample.minted) (World.init []) Sample.session
              (.endpoint Sample.crQuery)).2.2.requests = [req]
      ∧ req.URL = "https://argocd.example/api/v1/account/team-a?expiresIn=5/token"
      ∧ req.expirations = [Json.str "5/token"]
      ∧ ¬ (∀ x ∈ req.expirations, x.isZero = true) := by
  refine ⟨_, rfl, rfl, rfl, ?_⟩
  intro h
  exact absurd (h (Json.str "5/token") (List.mem_singleton.mpr rfl)) (by decide)

/-- C10, amended: Create calls GenerateToken once, for the account of the endpoint and with
expiresIn = 0, and sends the requests of that call; the result and the requests of
GenerateToken are the same for every value of expiresIn; the only request it sends is the POST
to the server URL followed by `/api/v1/account/`, the account name as it is and `/token`, with
the header `Authorization: Bearer <session token>` and no body; and when neither the server
URL nor the account name contains a `?`, this request has an empty query and carries no
expiration parameter at all. -/
theorem mint_request_without_expiration (env : Env) (w : World) :
    (∀ (e : external) (cr : Endpoint),
        (Create env w e (.endpoint cr)).2.2.mintCalls
          = w.mintCalls ++ [(cr.ForProvider.Account, 0)]
        ∧ (Create env w e (.endpoint cr)).2.2.requests
          = (GenerateToken env w e.cfg cr.ForProvider.Account 0).2.requests)
    ∧ (∀ (opts : TokenProviderOptions) (name : String) (expiresIn : Int),
        (GenerateToken env w opts name expiresIn).1 = (GenerateToken env w opts name 0).1
        ∧ (GenerateToken env w opts name expiresIn).2.requests
            = (GenerateToken env w opts name 0).2.requests
        ∧ (GenerateToken env w opts name expiresIn).2.mintCalls
            = w.mintCalls ++ [(name, expiresIn)])
    ∧ (∀ (opts : TokenProviderOptions) (name : String) (expiresIn : Int),
        (GenerateToken env w opts name expiresIn).2.requests
          = if opts.ServerUrl ≠ ""
                ∧ env.newRequestError "POST"
                    (opts.ServerUrl ++ "/api/v1/account/" ++ name ++ "/token") = none
                ∧ (opts.DebugClient = false
                    ∨ dumpError env (.request
                        { Method := "POST",
                          URL := opts.ServerUrl ++ "/api/v1/account/" ++ name ++ "/token",
                          Header := [("Content-Type", "application/json; charset=UTF-8"),
                                     ("Authorization", "Bearer " ++ opts.AuthToken)],
                          Body := none }) = none) then
              w.requests ++ [{ Method := "POST",
                               URL := opts.ServerUrl ++ "/api/v1/account/" ++ name ++ "/token",
                               Header := [("Content-Type", "application/json; charset=UTF-8"),
                                          ("Authorization", "Bearer " ++ opts.AuthToken)],
                               Body := none }]
            else w.requests)
    ∧ (∀ (opts : TokenProviderOptions) (name : String) (req : Request),
        req = { Method := "POST",
                URL := opts.ServerUrl ++ "/api/v1/account/" ++ name ++ "/token",
                Header := [("Content-Type", "application/json; charset=UTF-8"),
                           ("Authorization", "Bearer " ++ opts.AuthToken)],
                Body := none } →
        '?' ∉ opts.ServerUrl.data → '?' ∉ name.data →
        Go.urlRawQuery req.URL = "" ∧ req.Body = none ∧ req.expirations = []) := by
  refine ⟨?_, ?_, ?_, ?_⟩
  · intro e cr
    have hmint : (GenerateToken env w e.cfg cr.ForProvider.Account 0).2.mintCalls
        = w.mintCalls ++ [(cr.ForProvider.Account, 0)] := by
      rw [GenerateToken_eq]
      cases NewTokenProvider e.cfg <;> rfl
    simp only [Create, Endpoint.SetConditions_ForProvider, CreateEndpointSecret_eq]
    rcases hG : GenerateToken env w e.cfg cr.ForProvider.Account 0 with ⟨⟨token, err⟩, w1⟩
    rw [hG] at hmint
    simp only at hmint
    cases err with
    | some err => exact ⟨hmint, rfl⟩
    | none =>
      simp only
      generalize hw3 : eventf (logDebug w1 "Generated argocd token"
          ["account", cr.ForProvider.Account]) EventTypeNormal "TokenCreated"
          ("Generated argocd token for account: " ++ cr.ForProvider.Account) = w3
      have hr3 : w3.requests = w1.requests := by
        rw [← hw3]
        simp [eventf, logDebug]
      have hm3 : w3.mintCalls = w1.mintCalls := by
        rw [← hw3]
        simp [eventf, logDebug]
      have hframe := (kubeCreateSecret_frame env w3
        (endpointSecret cr.ForProvider.WriteSecretToRef token e.cfg.ServerUrl)).2.1
      have hframe2 := kubeCreateSecret_mintCalls env w3
        (endpointSecret cr.ForProvider.WriteSecretToRef token e.cfg.ServerUrl)
      rcases hK : kubeCreateSecret env w3
        (endpointSecret cr.ForProvider.WriteSecretToRef token e.cfg.ServerUrl) with ⟨r, w4⟩
      rw [hK] at hframe hframe2
      simp only at hframe hframe2
      cases r with
      | some err =>
        simp only [Option.map]
        exact ⟨by rw [hframe2, hm3, hmint], by rw [hframe, hr3]⟩
      | none =>
        simp only [Option.map, eventf, logDebug]
        exact ⟨by rw [hframe2, hm3, hmint], by rw [hframe, hr3]⟩
  · intro opts name expiresIn
    rw [GenerateToken_eq, GenerateToken_eq]
    cases NewTokenProvider opts with
    | inl err => exact ⟨rfl, rfl, rfl⟩
    | inr cli => exact ⟨rfl, rfl, rfl⟩
  · intro opts name expiresIn
    rw [GenerateToken_eq]
    unfold NewTokenProvider
    by_cases hurl : opts.ServerUrl = ""
    · simp [hurl]
    · simp only [bne_iff_ne, ne_eq, hurl, not_false_eq_true, if_true, beq_iff_eq, if_false,
        true_and]
      rw [CreateTokenForAccount_requests]
      simp [tokenProvider.SetAuthToken, tokenRequest]
  · intro opts name req hreq hserver hname
    subst hreq
    have hq : '?' ∉ (opts.ServerUrl ++ "/api/v1/account/" ++ name ++ "/token").data := by
      simp only [String.data_append, List.mem_append, not_or]
      exact ⟨⟨⟨hserver, by decide⟩, hname⟩, by decide⟩
    have hraw := urlRawQuery_empty _ hq
    refine ⟨hraw, rfl, ?_⟩
    simp only [Request.expirations, Go.queryValues, hraw]
    rfl

/-- Witness for C10: the request for the account `team-a` on `https://argocd.example` has an
empty query and carries no expiration parameter. -/
theorem mint_request_without_expiration_witness :
    Go.urlRawQuery "https://argocd.example/api/v1/account/team-a/token" = ""
      ∧ Request.expirations
          { Method := "POST", URL := "https://argocd.example/api/v1/account/team-a/token",
            Header := [("Content-Type", "application/json; charset=UTF-8"),
                       ("Authorization", "Bearer abc")],
            Body := none } = [] :=
  have h := (mint_request_without_expiration (Env.quiet Sample.minted) (World.init [])).2.2.2
    Sample.session.cfg "team-a" _ rfl (by decide) (by decide)
  ⟨h.1, h.2.2⟩

/-- Counterexample to C11 as stated: the provider configuration `default` has no user agent;
resolution succeeds, and the session returned carries the empty user agent, not the default
client identifier. -/
theorem session_user_agent_not_defaulted :
    (GetConfig (Env.quiet Sample.loggedIn) (Sample.world "" none) (.endpoint Sample.cr)).1
      = (some { ServerUrl := "https://argocd.example", UserAgent := "", AuthToken := "abc",
                DebugClient := false }, none)
    ∧ (UseProviderConfig (Env.quiet Sample.loggedIn) (Sample.world "" none)
        (.endpoint Sample.cr)).1
      = (some { ServerUrl := "https://argocd.example", UserAgent := "", AuthToken := "abc",
                DebugClient := false }, none)
    ∧ ("" : String) ≠ defaultUserAgent := by
  decide

/-- C11, amended: when GetConfig succeeds it is UseProviderConfig that answers, and the
session returned carries the server URL of the provider configuration read from the store,
its user agent as it is (the empty string when unset), its debug flag (false when unset) and
the bearer token returned by Login for the user `admin` and the resolved password; the default
client identifier is what a token provider built from such a session by NewTokenProvider
carries when the user agent is unset. -/
theorem session_of_provider_config (env : Env) (w : World) (mg : Managed)
    (opts : TokenProviderOptions)
    (hok : (GetConfig env w mg).1 = (some opts, none)) :
    GetConfig env w mg = UseProviderConfig env w mg
    ∧ ∃ name pc, mg.GetProviderConfigReference = some name
        ∧ (kubeGetProviderConfig env w name).1 = .inr pc
        ∧ opts.ServerUrl = pc.Spec.ServerUrl
        ∧ opts.UserAgent = pc.Spec.UserAgent
        ∧ opts.DebugClient = isBoolPtrEqualToBool pc.Spec.DebugClient true
        ∧ (pc.Spec.DebugClient = none → opts.DebugClient = false)
        ∧ (∃ pass w2 w3, GetInitialAdminPassword env w2 pc = ((pass, none), w3)
            ∧ (Login env w3 { opts with AuthToken := "" } "admin" pass).1
                = (opts.AuthToken, none))
        ∧ (pc.Spec.UserAgent = "" →
            opts.UserAgent = ""
            ∧ ∃ tp, NewTokenProvider opts = .inr tp ∧ tp.userAgent = defaultUserAgent) := by
  revert hok
  unfold GetConfig
  cases hname : mg.GetProviderConfigReference with
  | none => simp
  | some name =>
    simp only [bne_iff_ne, ne_eq, reduceCtorEq, not_false_eq_true, if_true, true_and]
    unfold UseProviderConfig
    simp only [hname]
    rcases hpc : kubeGetProviderConfig env w name with ⟨rpc, w1⟩
    cases rpc with
    | inl err => simp
    | inr pc =>
      simp only
      rcases htrack : kubeTrack env w1 name with ⟨rt, w2⟩
      cases rt with
      | some err => simp
      | none =>
        simp only
        rcases hpass : GetInitialAdminPassword env w2 pc with ⟨⟨pass, perr⟩, w3⟩
        cases perr with
        | some err => simp
        | none =>
          simp only
          rcases hlogin : Login env w3
            { ServerUrl := pc.Spec.ServerUrl, UserAgent := pc.Spec.UserAgent, AuthToken := "",
              DebugClient := isBoolPtrEqualToBool pc.Spec.DebugClient true } "admin" pass
            with ⟨⟨token, lerr⟩, w4⟩
          cases lerr with
          | some err => simp
          | none =>
            simp only [Prod.mk.injEq, Option.some.injEq, and_true]
            intro hopts
            subst hopts
            refine ⟨name, pc, rfl, by rw [hpc], rfl, rfl, rfl, ?_, ⟨pass, w2, w3, hpass, ?_⟩, ?_⟩
            · intro hd
              simp [hd, isBoolPtrEqualToBool]
            · simp only [hlogin]
            · intro hua
              refine ⟨hua, ?_⟩
              have hurl : pc.Spec.ServerUrl ≠ "" := by
                intro hempty
                simp [Login, NewTokenProvider, hempty] at hlogin
              simp [NewTokenProvider, hua, hurl]

/-- Witness for C11: the provider configuration `default` without user agent and debug flag
resolves to a session whose user agent is empty, and a token provider built from that session
carries the default client identifier. -/
theorem session_of_provider_config_witness :
    ∃ tp, NewTokenProvider { ServerUrl := "https://argocd.example", UserAgent := "",
                             AuthToken := "abc", DebugClient := false } = .inr tp
      ∧ tp.userAgent = "Krateo Platfomops" := by
  obtain ⟨-, name, pc, hname, hpc, -, -, -, -, -, hua⟩ :=
    session_of_provider_config (Env.quiet Sample.loggedIn) (Sample.world "" none)
      (.endpoint Sample.cr)
      { ServerUrl := "https://argocd.example", UserAgent := "", AuthToken := "abc",
        DebugClient := false } (by decide)
  have hn : name = "default" := by
    have h : some "default" = some name := hname
    exact (Option.some.inj h).symm
  subst hn
  have hp : pc.Spec.UserAgent = "" := by
    have h : (Sum.inr _ : KubeError ⊕ ProviderConfig) = Sum.inr pc := hpc
    rw [← Sum.inr.inj h]
  exact (hua hp).2

/-- Reading a key after a map write: the written value for the written key, the former value
for any other key. -/
theorem mapIndex_mapSet (m : StringMap) (k v name : String) :
    mapIndex (mapSet m k v) name = if name = k then v else mapIndex m name := by
  unfold mapIndex mapSet
  rw [List.lookup_append]
  induction m with
  | nil =>
    by_cases h : name = k
    · simp [h]
    · have h2 : (name == k) = false := by simpa using h
      simp [List.lookup, h, h2]
  | cons p m ih =>
    obtain ⟨a, b⟩ := p
    by_cases hak : a = k
    · subst hak
      by_cases h : name = a
      · simpa [List.filter, h] using ih
      · have h2 : (name == a) = false := by simpa using h
        simpa [List.filter, List.lookup_cons, h2, h] using ih
    · have hk : (a != k) = true := by simpa using hak
      by_cases h : name = a
      · subst h
        simp [List.filter, hk, hak]
      · have h2 : (name == a) = false := by simpa using h
        simpa [List.filter, hk, List.lookup_cons, h2] using ih

/-- Filling a map member by member: a key reads as the value of its last member, or as it
read in the initial map when no member has it. -/
theorem mapIndex_foldl_mapSet (members : StringMap) (init : StringMap) (name : String) :
    mapIndex (members.foldl (fun m p => mapSet m p.1 p.2) init) name
      = (members.reverse.lookup name).getD (mapIndex init name) := by
  induction members generalizing init with
  | nil => simp
  | cons p ms ih =>
    rw [List.foldl_cons, ih, List.reverse_cons, List.lookup_append, mapIndex_mapSet]
    cases hl : List.lookup name ms.reverse with
    | some v => simp
    | none =>
      obtain ⟨a, b⟩ := p
      by_cases h : name = a
      · simp [h]
      · have h2 : (name == a) = false := by simpa using h
        simp [List.lookup_cons, h, h2]

/-- Decoding a JSON object of strings into a string map succeeds, and a key of the map reads
as the value of the last member of that name. -/
theorem unmarshalStringMap_ofStrings (members : StringMap) (name : String) :
    (unmarshalStringMap (Json.ofStrings members)).2 = none
      ∧ mapIndex (unmarshalStringMap (Json.ofStrings members)).1 name
          = Json.field members name := by
  have hall : (List.map (fun p => (p.1, Json.str p.2)) members).all
      (fun p => match p.2 with
        | .str _ => true
        | .null => true
        | _ => false) = true := by
    apply List.all_eq_true.mpr
    intro p hp
    obtain ⟨q, -, rfl⟩ := List.mem_map.mp hp
    rfl
  simp only [unmarshalStringMap, Json.ofStrings, hall, if_true, List.foldl_map, Json.field]
  exact ⟨trivial, by simpa [mapIndex] using mapIndex_foldl_mapSet members [] name⟩

/-- The debug output when debug mode is off or the dump succeeds: the process goes on. -/
theorem debug_ok (enabled : Bool) (env : Env) (w : World) (d : Dump)
    (h : enabled = false ∨ dumpError env d = none) :
    debug enabled env w d
      = (none, if enabled = true then { w with dumps := w.dumps ++ [d] } else w) := by
  unfold debug
  cases enabled with
  | false => simp
  | true =>
    rcases h with h | h
    · exact absurd h (by decide)
    · simp [h]

/-- Counterexample to C12 as stated: in debug mode, the mint call answered with status 500
and a body that cannot be read does not return an error that carries the status; the dump of
the response fails and the process ends. -/
theorem client_exits_on_failed_dump :
    (Sample.debugProvider.CreateTokenForAccount (Env.quiet Sample.broken) (World.init [])
        "team-a").1
      = ("", some (.fatal "unexpected EOF"))
    ∧ (Sample.debugProvider.CreateTokenForAccount (Env.quiet Sample.broken) (World.init [])
        "team-a").1
      ≠ ("", some (.text
          "create argocd account token request failed: 500 Internal Server Error")) := by
  decide

/-- C12, amended: once the request is built, and when debug mode is off or the dumps of the
request and of the response succeed, CreateSession and CreateTokenForAccount return the
transport error when the request fails, return an error that carries the HTTP status line
when the status is not 200, and on a 200 response whose body is a JSON object of strings
return the value of its `token` member without error; in debug mode a dump that fails ends the
process instead, before the request is sent when it is the dump of the request; Login and
GenerateToken return what these two calls return on the token provider built from the
options. -/
theorem client_outcomes (tp : tokenProvider) (env : Env) (w : World) :
    (∀ user pass,
      env.newRequestError "POST" (tp.serverAddr ++ "/api/v1/session") = none →
        (tp.debugClient = false
            ∨ dumpError env (.request (sessionRequest tp user pass)) = none →
          (∀ err, env.roundTrip (sessionRequest tp user pass) = .inl err →
            (tp.CreateSession env w user pass).1 = ("", some (.http err)))
          ∧ (∀ res, env.roundTrip (sessionRequest tp user pass) = .inr res →
              tp.debugClient = false ∨ dumpError env (.response res) = none →
              res.StatusCode ≠ 200 →
              (tp.CreateSession env w user pass).1
                = ("", some (.text ("create argocd session request failed: " ++ res.Status))))
          ∧ (∀ res members, env.roundTrip (sessionRequest tp user pass) = .inr res →
              tp.debugClient = false ∨ dumpError env (.response res) = none →
              res.StatusCode = 200 → res.Body = .json (Json.ofStrings members) →
              (tp.CreateSession env w user pass).1 = (Json.field members "token", none))
          ∧ (∀ res err, env.roundTrip (sessionRequest tp user pass) = .inr res →
              tp.debugClient = true → dumpError env (.response res) = some err →
              (tp.CreateSession env w user pass).1 = ("", some (.fatal err))))
        ∧ (∀ err, tp.debugClient = true →
            dumpError env (.request (sessionRequest tp user pass)) = some err →
            tp.CreateSession env w user pass = (("", some (.fatal err)), w)))
    ∧ (∀ name,
      env.newRequestError "POST" (tp.serverAddr ++ "/api/v1/account/" ++ name ++ "/token")
          = none →
        (tp.debugClient = false ∨ dumpError env (.request (tokenRequest tp name)) = none →
          (∀ err, env.roundTrip (tokenRequest tp name) = .inl err →
            (tp.CreateTokenForAccount env w name).1 = ("", some (.http err)))
          ∧ (∀ res, env.roundTrip (tokenRequest tp name) = .inr res →
              tp.debugClient = false ∨ dumpError env (.response res) = none →
              res.StatusCode ≠ 200 →
              (tp.CreateTokenForAccount env w name).1
                = ("", some (.text
                    ("create argocd account token request failed: " ++ res.Status))))
          ∧ (∀ res members, env.roundTrip (tokenRequest tp name) = .inr res →
              tp.debugClient = false ∨ dumpError env (.response res) = none →
              res.StatusCode = 200 → res.Body = .json (Json.ofStrings members) →
              (tp.CreateTokenForAccount env w name).1 = (Json.field members "token", none))
          ∧ (∀ res err, env.roundTrip (tokenRequest tp name) = .inr res →
              tp.debugClient = true → dumpError env (.response res) = some err →
              (tp.CreateTokenForAccount env w name).1 = ("", some (.fatal err))))
        ∧ (∀ err, tp.debugClient = true →
            dumpError env (.request (tokenRequest tp name)) = some err →
            tp.CreateTokenForAccount env w name = (("", some (.fatal err)), w)))
    ∧ (∀ opts user pass name expiresIn, NewTokenProvider opts = .inr tp →
        tp.serverAddr = opts.ServerUrl
        ∧ Login env w opts user pass = tp.CreateSession env w user pass
        ∧ (GenerateToken env w opts name expiresIn).1
            = ((tp.SetAuthToken opts.AuthToken).CreateTokenForAccount env w name).1) := by
  have hh1 : mapSet [] "Content-Type" "application/json; charset=UTF-8"
      = [("Content-Type", "application/json; charset=UTF-8")] := by
    simp [mapSet]
  have hh2 : mapSet (mapSet [] "Content-Type" "application/json; charset=UTF-8")
      "Authorization" ("Bearer " ++ tp.authToken)
        = [("Content-Type", "application/json; charset=UTF-8"),
           ("Authorization", "Bearer " ++ tp.authToken)] := by
    simp [mapSet]
  refine ⟨?_, ?_, ?_⟩
  · intro user pass hnew
    refine ⟨fun hreq => ⟨?_, ?_, ?_, ?_⟩, ?_⟩
    · intro err hround
      simp only [sessionRequest] at hround hreq
      simp [tokenProvider.CreateSession, httpDo, hnew, hh1, hround, debug_ok _ _ _ _ hreq]
    · intro res hround hres hstatus
      simp only [sessionRequest] at hround hreq
      simp [tokenProvider.CreateSession, httpDo, hnew, hh1, hround, hstatus,
        debug_ok _ _ _ _ hreq, debug_ok _ _ _ _ hres]
    · intro res members hround hres hstatus hbody
      simp only [sessionRequest] at hround hreq
      obtain ⟨hnone, hfield⟩ := unmarshalStringMap_ofStrings members "token"
      rcases hu : unmarshalStringMap (Json.ofStrings members) with ⟨m, uerr⟩
      rw [hu] at hnone hfield
      simp only at hnone hfield
      subst hnone
      simp [tokenProvider.CreateSession, httpDo, hnew, hh1, hround, hstatus, hbody, hu, hfield,
        debug_ok _ _ _ _ hreq, debug_ok _ _ _ _ hres]
    · intro res err hround hdebug hdump
      simp only [sessionRequest] at hround hreq
      have hr := hreq.resolve_left (by simp [hdebug])
      simp [tokenProvider.CreateSession, httpDo, hnew, hh1, hround, debug, hdebug, hdump, hr]
    · intro err hdebug hdump
      simp only [sessionRequest] at hdump
      simp [tokenProvider.CreateSession, hnew, hh1, debug, hdebug, hdump]
  · intro name hnew
    refine ⟨fun hreq => ⟨?_, ?_, ?_, ?_⟩, ?_⟩
    · intro err hround
      simp only [tokenRequest] at hround hreq
      simp [tokenProvider.CreateTokenForAccount, httpDo, hnew, hh2, hround,
        debug_ok _ _ _ _ hreq]
    · intro res hround hres hstatus
      simp only [tokenRequest] at hround hreq
      simp [tokenProvider.CreateTokenForAccount, httpDo, hnew, hh2, hround, hstatus,
        debug_ok _ _ _ _ hreq, debug_ok _ _ _ _ hres]
    · intro res members hround hres hstatus hbody
      simp only [tokenRequest] at hround hreq
      obtain ⟨hnone, hfield⟩ := unmarshalStringMap_ofStrings members "token"
      rcases hu : unmarshalStringMap (Json.ofStrings members) with ⟨m, uerr⟩
      rw [hu] at hnone hfield
      simp only at hnone hfield
      subst hnone
      simp [tokenProvider.CreateTokenForAccount, httpDo, hnew, hh2, hround, hstatus, hbody, hu,
        hfield, debug_ok _ _ _ _ hreq, debug_ok _ _ _ _ hres]
    · intro res err hround hdebug hdump
      simp only [tokenRequest] at hround hreq
      have hr := hreq.resolve_left (by simp [hdebug])
      simp [tokenProvider.CreateTokenForAccount, httpDo, hnew, hh2, hround, debug, hdebug,
        hdump, hr]
    · intro err hdebug hdump
      simp only [tokenRequest] at hdump
      simp [tokenProvider.CreateTokenForAccount, hnew, hh2, debug, hdebug, hdump]
  · intro opts user pass name expiresIn htp
    refine ⟨?_, ?_, ?_⟩
    · revert htp
      unfold NewTokenProvider
      by_cases hurl : opts.ServerUrl = ""
      · simp [hurl]
      · simp only [bne_iff_ne, ne_eq, hurl, not_false_eq_true, if_true, beq_iff_eq, if_false]
        intro h
        rw [← Sum.inr.inj h]
    · simp [Login, htp]
    · rw [GenerateToken_eq, htp]

/-- Witness for C12: with debug mode off, the mint call against a server that answers 401
returns an error with the status line; against a transport that fails it returns the
transport error; the login call against a server that answers 200 with the token `abc`
returns `abc`. -/
theorem client_outcomes_witness :
    (Sample.provider.CreateTokenForAccount (Env.quiet (Sample.refused 401 "401 Unauthorized"))
        (World.init []) "team-a").1
      = ("", some (.text "create argocd account token request failed: 401 Unauthorized"))
    ∧ (Sample.provider.CreateTokenForAccount
          { Env.quiet Sample.minted with roundTrip := fun _ => .inl "connection refused" }
          (World.init []) "team-a").1
        = ("", some (.http "connection refused"))
    ∧ (Sample.provider.CreateSession (Env.quiet Sample.loggedIn) (World.init [])
          "admin" "pw").1
        = ("abc", none) :=
  ⟨(((client_outcomes Sample.provider (Env.quiet (Sample.refused 401 "401 Unauthorized"))
      (World.init [])).2.1 "team-a" rfl).1 (Or.inl rfl)).2.1
      (Sample.refused 401 "401 Unauthorized") rfl (Or.inl rfl) (by decide),
    (((client_outcomes Sample.provider
      { Env.quiet Sample.minted with roundTrip := fun _ => .inl "connection refused" }
      (World.init [])).2.1 "team-a" rfl).1 (Or.inl rfl)).1 "connection refused" rfl,
    (((client_outcomes Sample.provider (Env.quiet Sample.loggedIn)
      (World.init [])).1 "admin" "pw" rfl).1 (Or.inl rfl)).2.2.1
      Sample.loggedIn [("token", "abc")] rfl (Or.inl rfl) rfl rfl⟩

/-- C13: Delete makes one store call, the delete of the secret the endpoint refers to, and
returns the result of that call as it is, the store being left as the call leaves it: when
the result is no error the store held the secret and holds it no more, and otherwise the
store is as it was; on a store without that secret, when the delete does not fail for a reason
of the store, the result is the store's not-found error; the `TokenDeleted` event is emitted
when the result is no error and no event is emitted otherwise; in every case the Deleting
condition is set on the resource and no request is sent to the remote service. -/
theorem delete_returns_store_result (env : Env) (w : World) (e : external) (cr : Endpoint) :
    (Delete env w e (.endpoint cr)).1
        = ((kubeDeleteSecret env w cr.ForProvider.WriteSecretToRef.Namespace
            cr.ForProvider.WriteSecretToRef.Name).1).map GoError.api
    ∧ (Delete env w e (.endpoint cr)).2.2.calls
        = w.calls ++ [KubeOp.deleteSecret cr.ForProvider.WriteSecretToRef.Namespace
            cr.ForProvider.WriteSecretToRef.Name]
    ∧ (Delete env w e (.endpoint cr)).2.2.kube
        = (kubeDeleteSecret env w cr.ForProvider.WriteSecretToRef.Namespace
            cr.ForProvider.WriteSecretToRef.Name).2.kube
    ∧ ((Delete env w e (.endpoint cr)).1 = none →
        w.kube.findSecret cr.ForProvider.WriteSecretToRef.Namespace
            cr.ForProvider.WriteSecretToRef.Name ≠ none
        ∧ (Delete env w e (.endpoint cr)).2.2.kube.secrets
            = w.kube.secrets.filter (fun s =>
                !(s.Namespace == cr.ForProvider.WriteSecretToRef.Namespace
                  && s.Name == cr.ForProvider.WriteSecretToRef.Name))
        ∧ (Delete env w e (.endpoint cr)).2.2.kube.findSecret
            cr.ForProvider.WriteSecretToRef.Namespace
            cr.ForProvider.WriteSecretToRef.Name = none)
    ∧ ((Delete env w e (.endpoint cr)).1 ≠ none →
        (Delete env w e (.endpoint cr)).2.2.kube = w.kube)
    ∧ (env.kubeFault (.deleteSecret cr.ForProvider.WriteSecretToRef.Namespace
          cr.ForProvider.WriteSecretToRef.Name) = none →
        w.kube.findSecret cr.ForProvider.WriteSecretToRef.Namespace
          cr.ForProvider.WriteSecretToRef.Name = none →
        (Delete env w e (.endpoint cr)).1 = some (.api .notFound))
    ∧ (Delete env w e (.endpoint cr)).2.2.events
        = (if (Delete env w e (.endpoint cr)).1 = none then
            w.events ++ [{ EventType := "Normal", Reason := "TokenDeleted",
                           Message := "Deleted argocd token for account \x27"
                             ++ cr.ForProvider.Account ++ "\x27 into \x27"
                             ++ cr.ForProvider.WriteSecretToRef.Name ++ "\x27 secret" }]
          else w.events)
    ∧ (Delete env w e (.endpoint cr)).2.1 = .endpoint (cr.SetConditions Deleting)
    ∧ Deleting ∈ (cr.SetConditions Deleting).Conditions
    ∧ (Delete env w e (.endpoint cr)).2.2.requests = w.requests := by
  have hgone : (w.kube.secrets.filter (fun s =>
      !(s.Namespace == cr.ForProvider.WriteSecretToRef.Namespace
        && s.Name == cr.ForProvider.WriteSecretToRef.Name))).find? (fun s =>
      s.Namespace == cr.ForProvider.WriteSecretToRef.Namespace
        && s.Name == cr.ForProvider.WriteSecretToRef.Name) = none := by
    rw [List.find?_eq_none]
    intro s hs
    have hkeep := (List.mem_filter.mp hs).2
    simp only [Bool.not_eq_true_eq_eq_false, Bool.not_eq_true', Bool.not_eq_true] at hkeep ⊢
    simpa using hkeep
  simp only [Delete, Endpoint.SetConditions_ForProvider, DeleteEndpointSecret, kubeDeleteSecret,
    logDebug, eventf, EventTypeNormal]
  cases hf : env.kubeFault (.deleteSecret cr.ForProvider.WriteSecretToRef.Namespace
      cr.ForProvider.WriteSecretToRef.Name) with
  | some err =>
    simp [Endpoint.mem_SetConditions]
  | none =>
    cases hs : w.kube.findSecret cr.ForProvider.WriteSecretToRef.Namespace
        cr.ForProvider.WriteSecretToRef.Name with
    | none => simp [Endpoint.mem_SetConditions]
    | some s =>
      simp only [Kube.findSecret, hgone]
      simp [Endpoint.mem_SetConditions]

/-- Witness for C13: Delete on the empty store returns the store's not-found error; Delete on
a store that holds the secret `x/tok-a` returns no error and leaves a store without it. -/
theorem delete_returns_store_result_witness :
    (Delete (Env.quiet Sample.minted) (World.init []) Sample.session (.endpoint Sample.cr)).1
      = some (.api .notFound)
    ∧ (Delete (Env.quiet Sample.minted) (World.init [Sample.secret [("bearer", "xyz")]])
        Sample.session (.endpoint Sample.cr)).2.2.kube.findSecret "x" "tok-a" = none :=
  ⟨(delete_returns_store_result (Env.quiet Sample.minted) (World.init []) Sample.session
      Sample.cr).2.2.2.2.2.1 rfl rfl,
    ((delete_returns_store_result (Env.quiet Sample.minted)
      (World.init [Sample.secret [("bearer", "xyz")]]) Sample.session
      Sample.cr).2.2.2.1 (by decide)).2.2⟩

/-- The result of the store's create depends on the store contents only, and a failed create
leaves them as they were. -/
theorem kubeCreateSecret_result (env : Env) (w w1 : World) (s : Secret)
    (hkube : w1.kube = w.kube) :
    (kubeCreateSecret env w1 s).1 = (kubeCreateSecret env w s).1
      ∧ (∀ err, (kubeCreateSecret env w1 s).1 = some err →
          (kubeCreateSecret env w1 s).2.kube = w.kube) := by
  unfold kubeCreateSecret
  rw [hkube]
  cases env.kubeFault (.createSecret s) with
  | some err => simp [hkube]
  | none =>
    cases w.kube.findSecret s.Namespace s.Name with
    | some s1 => simp [hkube]
    | none => simp

/-- C14: if the mint call fails, Create returns its error, leaves the store as it was, makes
no store call and emits no event; if the mint call succeeds and the store's create of the
secret fails, Create returns the store's error, leaves the store as it was, and has emitted
`TokenCreated` alone; and the two events `TokenCreated`, `TokenSaved` are both emitted exactly
when Create returns no error. -/
theorem create_errors_and_events (env : Env) (w : World) (e : external) (cr : Endpoint) :
    (∀ err, (GenerateToken env w e.cfg cr.ForProvider.Account 0).1.2 = some err →
        (Create env w e (.endpoint cr)).1 = some err
        ∧ (Create env w e (.endpoint cr)).2.2.kube = w.kube
        ∧ (Create env w e (.endpoint cr)).2.2.calls = w.calls
        ∧ (Create env w e (.endpoint cr)).2.2.events = w.events)
    ∧ (∀ kerr, (GenerateToken env w e.cfg cr.ForProvider.Account 0).1.2 = none →
        (kubeCreateSecret env w (endpointSecret cr.ForProvider.WriteSecretToRef
          (GenerateToken env w e.cfg cr.ForProvider.Account 0).1.1 e.cfg.ServerUrl)).1
            = some kerr →
        (Create env w e (.endpoint cr)).1 = some (.api kerr)
        ∧ (Create env w e (.endpoint cr)).2.2.kube = w.kube
        ∧ (Create env w e (.endpoint cr)).2.2.events
            = w.events ++ [{ EventType := "Normal", Reason := "TokenCreated",
                             Message := "Generated argocd token for account: "
                               ++ cr.ForProvider.Account }])
    ∧ ((Create env w e (.endpoint cr)).1 = none
        ↔ (Create env w e (.endpoint cr)).2.2.events
            = w.events ++ [{ EventType := "Normal", Reason := "TokenCreated",
                             Message := "Generated argocd token for account: "
                               ++ cr.ForProvider.Account },
                           { EventType := "Normal", Reason := "TokenSaved",
                             Message := "Saved argocd token for account \x27"
                               ++ cr.ForProvider.Account ++ "\x27 into \x27"
                               ++ cr.ForProvider.WriteSecretToRef.Name ++ "\x27 secret" }]) := by
  have hs := GenerateToken_sameStore env w e.cfg cr.ForProvider.Account 0
  simp only [Create, Endpoint.SetConditions_ForProvider, CreateEndpointSecret_eq]
  rcases hG : GenerateToken env w e.cfg cr.ForProvider.Account 0 with ⟨⟨token, err⟩, w1⟩
  rw [hG] at hs
  obtain ⟨hkube, hcalls, hevents, -⟩ := hs
  simp only at hkube hcalls hevents
  cases err with
  | some err =>
    simp [hkube, hcalls, hevents]
  | none =>
    simp only
    generalize hw3 : eventf (logDebug w1 "Generated argocd token"
        ["account", cr.ForProvider.Account]) EventTypeNormal "TokenCreated"
        ("Generated argocd token for account: " ++ cr.ForProvider.Account) = w3
    have hk3 : w3.kube = w.kube := by
      rw [← hw3]
      simpa [eventf, logDebug] using hkube
    have he3 : w3.events = w.events ++ [(⟨"Normal", "TokenCreated",
        "Generated argocd token for account: " ++ cr.ForProvider.Account⟩ : Event)] := by
      rw [← hw3]
      simp [eventf, logDebug, hevents, EventTypeNormal]
    obtain ⟨hres, hfail⟩ := kubeCreateSecret_result env w w3
      (endpointSecret cr.ForProvider.WriteSecretToRef token e.cfg.ServerUrl) hk3
    have hframe := (kubeCreateSecret_frame env w3
      (endpointSecret cr.ForProvider.WriteSecretToRef token e.cfg.ServerUrl)).2.2
    rcases hK : kubeCreateSecret env w3
      (endpointSecret cr.ForProvider.WriteSecretToRef token e.cfg.ServerUrl) with ⟨r, w4⟩
    rw [hK] at hres hfail hframe
    simp only at hres hfail hframe
    rw [← hres]
    cases r with
    | some kerr =>
      have hk4 := hfail kerr rfl
      simp [hk4, hframe, he3]
    | none =>
      simp [eventf, logDebug, hframe, he3, EventTypeNormal]

/-- Witness for C14: against a server that refuses the mint call, Create returns the error of
the call and emits no event; on a store that already holds the secret `x/tok-a`, Create
returns the store's already-exists error after emitting `TokenCreated` alone. -/
theorem create_errors_and_events_witness :
    ((Create (Env.quiet (Sample.refused 401 "401 Unauthorized")) (World.init [])
          Sample.session (.endpoint Sample.cr)).1
        = some (.text "create argocd account token request failed: 401 Unauthorized")
      ∧ (Create (Env.quiet (Sample.refused 401 "401 Unauthorized")) (World.init [])
          Sample.session (.endpoint Sample.cr)).2.2.events = [])
    ∧ ((Create (Env.quiet Sample.minted) (World.init [Sample.secret []])
          Sample.session (.endpoint Sample.cr)).1
        = some (.api .alreadyExists)
      ∧ (Create (Env.quiet Sample.minted) (World.init [Sample.secret []])
          Sample.session (.endpoint Sample.cr)).2.2.events
        = [{ EventType := "Normal", Reason := "TokenCreated",
             Message := "Generated argocd token for account: team-a" }]) :=
  ⟨⟨((create_errors_and_events (Env.quiet (Sample.refused 401 "401 Unauthorized"))
        (World.init []) Sample.session Sample.cr).1
        (.text "create argocd account token request failed: 401 Unauthorized") rfl).1,
     ((create_errors_and_events (Env.quiet (Sample.refused 401 "401 Unauthorized"))
        (World.init []) Sample.session Sample.cr).1
        (.text "create argocd account token request failed: 401 Unauthorized") rfl).2.2.2⟩,
   ⟨((create_errors_and_events (Env.quiet Sample.minted)
        (World.init [Sample.secret []]) Sample.session Sample.cr).2.1
        .alreadyExists rfl rfl).1,
     ((create_errors_and_events (Env.quiet Sample.minted)
        (World.init [Sample.secret []]) Sample.session Sample.cr).2.1
        .alreadyExists rfl rfl).2.2⟩⟩

/-- The observation and error of Observe depend only on the store contents, the reference of
the endpoint and the outcome of the store for the read. -/
theorem Observe_congr (env env2 : Env) (w w2 : World) (e e2 : external) (cr cr2 : Endpoint)
    (hkube : w2.kube = w.kube) (hsame : cr2.ForProvider = cr.ForProvider)
    (hfault : env2.kubeFault (.getSecret cr.ForProvider.WriteSecretToRef.Namespace
        cr.ForProvider.WriteSecretToRef.Name)
      = env.kubeFault (.getSecret cr.ForProvider.WriteSecretToRef.Namespace
          cr.ForProvider.WriteSecretToRef.Name)) :
    (Observe env2 w2 e2 (.endpoint cr2)).1 = (Observe env w e (.endpoint cr)).1 := by
  simp only [Observe, GetEndpointSecret, kubeGetSecret, hsame, hkube, hfault]
  cases env.kubeFault (.getSecret cr.ForProvider.WriteSecretToRef.Namespace
      cr.ForProvider.WriteSecretToRef.Name) with
  | some err => cases err <;> simp [IsNotFound]
  | none =>
    cases w.kube.findSecret cr.ForProvider.WriteSecretToRef.Namespace
        cr.ForProvider.WriteSecretToRef.Name with
    | none => simp [IsNotFound]
    | some s =>
      by_cases hlen : (mapIndex s.Data tokenKey).length > 0
      · simp [hlen]
      · simp [hlen]

/-- Observe changes nothing in the world but the record of store calls, to which it adds the
one read of the secret, and it returns the endpoint with its parameters as they were. -/
theorem Observe_world (env : Env) (w : World) (e : external) (cr : Endpoint) :
    (Observe env w e (.endpoint cr)).2.2
        = { w with calls := w.calls ++ [KubeOp.getSecret
              cr.ForProvider.WriteSecretToRef.Namespace cr.ForProvider.WriteSecretToRef.Name] }
      ∧ ∃ cr2, (Observe env w e (.endpoint cr)).2.1 = .endpoint cr2
          ∧ cr2.ForProvider = cr.ForProvider := by
  simp only [Observe, GetEndpointSecret, kubeGetSecret]
  cases env.kubeFault (.getSecret cr.ForProvider.WriteSecretToRef.Namespace
      cr.ForProvider.WriteSecretToRef.Name) with
  | some err => cases err <;> simp [IsNotFound]
  | none =>
    cases w.kube.findSecret cr.ForProvider.WriteSecretToRef.Namespace
        cr.ForProvider.WriteSecretToRef.Name with
    | none => simp [IsNotFound]
    | some s =>
      by_cases hlen : (mapIndex s.Data tokenKey).length > 0
      · simp [hlen, Endpoint.SetConditions_ForProvider]
      · simp [hlen]

/-- C15: Observe leaves the store contents as they were (it only adds its one read to the
record of store calls); hence a second Observe right after it, of the endpoint as given or as
the first Observe returned it, for which the store answers the read as it did for the first,
returns the same observation and the same error. -/
theorem observe_twice_same (env env2 : Env) (w : World) (e e2 : external) (cr : Endpoint)
    (hfault : env2.kubeFault (.getSecret cr.ForProvider.WriteSecretToRef.Namespace
        cr.ForProvider.WriteSecretToRef.Name)
      = env.kubeFault (.getSecret cr.ForProvider.WriteSecretToRef.Namespace
          cr.ForProvider.WriteSecretToRef.Name)) :
    (Observe env w e (.endpoint cr)).2.2.kube = w.kube
    ∧ (Observe env w e (.endpoint cr)).2.2.events = w.events
    ∧ (Observe env w e (.endpoint cr)).2.2.requests = w.requests
    ∧ (Observe env2 (Observe env w e (.endpoint cr)).2.2 e2 (.endpoint cr)).1
        = (Observe env w e (.endpoint cr)).1
    ∧ (Observe env2 (Observe env w e (.endpoint cr)).2.2 e2
          (Observe env w e (.endpoint cr)).2.1).1
        = (Observe env w e (.endpoint cr)).1 := by
  obtain ⟨hworld, cr2, hmg, hsame⟩ := Observe_world env w e cr
  have hkube : (Observe env w e (.endpoint cr)).2.2.kube = w.kube := by rw [hworld]
  refine ⟨hkube, by rw [hworld], by rw [hworld], ?_, ?_⟩
  · exact Observe_congr env env2 w _ e e2 cr cr hkube rfl hfault
  · rw [hmg]
    exact Observe_congr env env2 w _ e e2 cr cr2 hkube hsame hfault

/-- Witness for C15: on a store that holds the bearer value `xyz`, two Observe calls in a row
both report exists = true, upToDate = true without error. -/
theorem observe_twice_same_witness :
    (Observe (Env.quiet Sample.minted)
        (Observe (Env.quiet Sample.minted) (World.init [Sample.secret [("bearer", "xyz")]])
          Sample.session (.endpoint Sample.cr)).2.2
        Sample.session
        (Observe (Env.quiet Sample.minted) (World.init [Sample.secret [("bearer", "xyz")]])
          Sample.session (.endpoint Sample.cr)).2.1).1
      = (Observe (Env.quiet Sample.minted) (World.init [Sample.secret [("bearer", "xyz")]])
          Sample.session (.endpoint Sample.cr)).1 :=
  (observe_twice_same (Env.quiet Sample.minted) (Env.quiet Sample.minted)
    (World.init [Sample.secret [("bearer", "xyz")]]) Sample.session Sample.session Sample.cr
    rfl).2.2.2.2
